/-
A shallow embedding of the dental-clinic chatbot conversation engine
(src/chatbot_service.py) together with the pieces of the data model it
reads (src/appointment.py), and theorems checking the specification's
claims against that embedding.

Conventions of the embedding:
  * Python strings are Lean `String`s; `str.strip()`, `str.lower()`,
    the substring test `needle in hay` and `int(...)` are modelled by
    `pyStrip`, `pyLower`, `pyIn` and `pyInt` below.
  * `datetime.now()` is abstracted into an `Env` record carrying the
    seconds timestamp, the calendar date and the hour of one wall-clock
    reading, threaded through the engine.
  * `datetime.strptime` for the two formats the source uses is modelled
    after CPython's `_strptime` regexes (`%Y` = exactly four digits,
    `%m`, `%d`, `%H`, `%M` = one- or two-digit fields with the regex's
    greedy alternatives) followed by the `datetime` constructor's
    calendar validation.  The regex alternatives are such that
    backtracking can never rescue a failed greedy match against the
    literal separators, so a deterministic longest-first parser is
    exact.
  * The service layer the engine calls (`get_patient_appointments`,
    `book_appointment_validated`, `cancel_appointment`,
    `reschedule_appointment`, `get_all_doctors`, `get_doctor_by_name`)
    is not part of src/clinic_service.py; the spec lists it as the
    external Clinic Gateway collaborator, so it enters the model as an
    explicit `ClinicGateway` record of oracles quantified over in the
    theorems.
-/
import Mathlib

namespace Chatbot

/-! ## Python string primitives -/

/-- The whitespace characters `str.strip()` removes (the ASCII ones;
the source never feeds it other Unicode whitespace). -/
def pyIsSpace (c : Char) : Bool :=
  c = ' ' || c = '\t' || c = '\n' || c = '\r' || c = '\x0b' || c = '\x0c'

/-- Python `str.strip()` on the character list: drop leading and
trailing whitespace. -/
def pyStripList (cs : List Char) : List Char :=
  ((cs.dropWhile pyIsSpace).reverse.dropWhile pyIsSpace).reverse

/-- Python `str.strip()`. -/
def pyStrip (s : String) : String :=
  ⟨pyStripList s.toList⟩

/-- Python `str.lower()` (the source only ever lowers ASCII text). -/
def pyLower (s : String) : String :=
  ⟨s.toList.map Char.toLower⟩

/-- Scanning substring test on character lists: does `needle` occur
contiguously inside `hay`? -/
def pyInList (needle : List Char) : List Char → Bool
  | [] => needle.isEmpty
  | c :: rest => needle.isPrefixOf (c :: rest) || pyInList needle rest

/-- Python's substring operator `needle in hay`. -/
def pyIn (needle hay : String) : Bool :=
  pyInList needle.toList hay.toList

/-- Python `str.isdigit()` (for the ASCII digits the source cares about). -/
def pyIsDigitStr (s : String) : Bool :=
  !s.toList.isEmpty && s.toList.all Char.isDigit

/-- Numeric value of a decimal digit character. -/
def digitVal (c : Char) : Nat := c.toNat - 48

/-- Value of a nonempty list of decimal digits. -/
def digitsVal (cs : List Char) : Nat :=
  cs.foldl (fun a c => 10 * a + digitVal c) 0

/-- Python `int(s)` on an already-stripped string: an optional sign and
then decimal digits, `none` when `int` would raise `ValueError`.
(Python additionally allows `_` between digits; no input the development
evaluates uses that.) -/
def pyInt (s : String) : Option Int :=
  match s.toList with
  | '+' :: rest =>
      if rest ≠ [] ∧ rest.all Char.isDigit then some (digitsVal rest) else none
  | '-' :: rest =>
      if rest ≠ [] ∧ rest.all Char.isDigit then some (-(digitsVal rest : Int)) else none
  | cs =>
      if cs ≠ [] ∧ cs.all Char.isDigit then some (digitsVal cs) else none

/-- Python `str(x)` applied to an optional field: `None` prints as
`"None"` inside f-strings. -/
def pyStrOpt : Option String → String
  | some s => s
  | none => "None"

/-- Python `sep.join(parts)`. -/
def joinWith (sep : String) : List String → String
  | [] => ""
  | [x] => x
  | x :: y :: rest => x ++ sep ++ joinWith sep (y :: rest)

/-! ## The proleptic Gregorian calendar, as Python's `datetime.date` -/

structure Date where
  year : Nat
  month : Nat
  day : Nat
deriving DecidableEq

/-- Leap years of the Gregorian calendar. -/
def isLeapYear (y : Nat) : Bool :=
  (y % 4 == 0 && y % 100 != 0) || y % 400 == 0

/-- Days of month `m` in a (non-)leap year. -/
def daysInMonthL (leap : Bool) (m : Nat) : Nat :=
  if m = 2 then (if leap then 29 else 28)
  else if m = 4 ∨ m = 6 ∨ m = 9 ∨ m = 11 then 30
  else 31

/-- Days of month `m` of year `y`. -/
def daysInMonth (y m : Nat) : Nat := daysInMonthL (isLeapYear y) m

/-- A value `datetime.date` can hold (MINYEAR = 1; the year bound 9999
never matters below because parsed years have four digits). -/
def dateOk (d : Date) : Prop :=
  1 ≤ d.year ∧ 1 ≤ d.month ∧ d.month ≤ 12 ∧ 1 ≤ d.day ∧ d.day ≤ daysInMonth d.year d.month

instance (d : Date) : Decidable (dateOk d) := by
  unfold dateOk; infer_instance

/-- Python date comparison `a < b` (tuple comparison of
(year, month, day), which on valid dates is chronological order). -/
def date_lt (a b : Date) : Bool :=
  decide (a.year < b.year ∨ (a.year = b.year ∧
    (a.month < b.month ∨ (a.month = b.month ∧ a.day < b.day))))

/-- The day after `d`. -/
def nextDay (d : Date) : Date :=
  if d.day < daysInMonth d.year d.month then ⟨d.year, d.month, d.day + 1⟩
  else if d.month < 12 then ⟨d.year, d.month + 1, 1⟩
  else ⟨d.year + 1, 1, 1⟩

/-- Python `d + timedelta(days 'equal to' n)`, as iterated successor. -/
def dateAddDays (d : Date) : Nat → Date
  | 0 => d
  | n + 1 => nextDay (dateAddDays d n)

/-- Number of leap years in `1..n`. -/
def leapsBefore (n : Nat) : Nat := n / 4 + n / 400 - n / 100

/-- Days in the years `1..y-1`. -/
def daysBeforeYear (y : Nat) : Nat := 365 * (y - 1) + leapsBefore (y - 1)

/-- Days in the months before month `m` of a (non-)leap year. -/
def daysBeforeMonth (leap : Bool) (m : Nat) : Nat :=
  let base :=
    match m with
    | 1 => 0 | 2 => 31 | 3 => 59 | 4 => 90 | 5 => 120 | 6 => 151
    | 7 => 181 | 8 => 212 | 9 => 243 | 10 => 273 | 11 => 304 | _ => 334
  if leap ∧ 3 ≤ m then base + 1 else base

/-- Days in a (non-)leap year. -/
def daysInYearL (leap : Bool) : Nat := if leap then 366 else 365

/-- `date.toordinal()`: the chronological position of a date, counting
0001-01-01 as day 1. -/
def toOrdinal (d : Date) : Nat :=
  daysBeforeYear d.year + daysBeforeMonth (isLeapYear d.year) d.month + d.day

/-! ## CPython `_strptime` field parsers (greedy regex alternatives) -/

/-- `%Y`: exactly four decimal digits. -/
def parseYear : List Char → Option (Nat × List Char)
  | a :: b :: c :: d :: rest =>
      if a.isDigit ∧ b.isDigit ∧ c.isDigit ∧ d.isDigit then
        some (1000 * digitVal a + 100 * digitVal b + 10 * digitVal c + digitVal d, rest)
      else none
  | _ => none

/-- `%m`: regex `1[0-2]|0[1-9]|[1-9]`. -/
def parseMonth : List Char → Option (Nat × List Char)
  | '1' :: c :: rest =>
      if '0' ≤ c ∧ c ≤ '2' then some (10 + digitVal c, rest)
      else some (1, c :: rest)
  | '0' :: c :: rest =>
      if '1' ≤ c ∧ c ≤ '9' then some (digitVal c, rest) else none
  | c :: rest =>
      if '1' ≤ c ∧ c ≤ '9' then some (digitVal c, rest) else none
  | [] => none

/-- `%d`: regex `3[01]|[12][0-9]|0[1-9]|[1-9]`. -/
def parseDay : List Char → Option (Nat × List Char)
  | '3' :: c :: rest =>
      if c = '0' ∨ c = '1' then some (30 + digitVal c, rest)
      else some (3, c :: rest)
  | '1' :: c :: rest =>
      if c.isDigit then some (10 + digitVal c, rest) else some (1, c :: rest)
  | '2' :: c :: rest =>
      if c.isDigit then some (20 + digitVal c, rest) else some (2, c :: rest)
  | '0' :: c :: rest =>
      if '1' ≤ c ∧ c ≤ '9' then some (digitVal c, rest) else none
  | c :: rest =>
      if '1' ≤ c ∧ c ≤ '9' then some (digitVal c, rest) else none
  | [] => none

/-- `%H`: regex `2[0-3]|[0-1][0-9]|[0-9]`. -/
def parseHour : List Char → Option (Nat × List Char)
  | '2' :: c :: rest =>
      if '0' ≤ c ∧ c ≤ '3' then some (20 + digitVal c, rest)
      else some (2, c :: rest)
  | '0' :: c :: rest =>
      if c.isDigit then some (digitVal c, rest) else some (0, c :: rest)
  | '1' :: c :: rest =>
      if c.isDigit then some (10 + digitVal c, rest) else some (1, c :: rest)
  | c :: rest =>
      if c.isDigit then some (digitVal c, rest) else none
  | [] => none

/-- `%M`: regex `[0-5][0-9]|[0-9]`. -/
def parseMinute : List Char → Option (Nat × List Char)
  | c :: c2 :: rest =>
      if '0' ≤ c ∧ c ≤ '5' ∧ c2.isDigit then some (10 * digitVal c + digitVal c2, rest)
      else if c.isDigit then some (digitVal c, c2 :: rest)
      else none
  | [c] => if c.isDigit then some (digitVal c, []) else none
  | [] => none

/-- `datetime.strptime(s, "%Y-%m-%d")` followed by the `datetime`
constructor's calendar validation (month range, day range for the month,
`MINYEAR = 1`); the whole string must be consumed. -/
def strptimeDate (s : String) : Option Date :=
  match parseYear s.toList with
  | some (y, '-' :: r1) =>
    (match parseMonth r1 with
     | some (m, '-' :: r2) =>
       (match parseDay r2 with
        | some (d, []) =>
            if 1 ≤ y ∧ 1 ≤ m ∧ m ≤ 12 ∧ 1 ≤ d ∧ d ≤ daysInMonth y m then
              some ⟨y, m, d⟩
            else none
        | _ => none)
     | _ => none)
  | _ => none

/-- `datetime.strptime(s, "%H:%M")`: the (hour, minute) pair; the field
regexes already bound hour ≤ 23 and minute ≤ 59, matching the
constructor's checks. -/
def strptimeTime (s : String) : Option (Nat × Nat) :=
  match parseHour s.toList with
  | some (h, ':' :: r1) =>
    (match parseMinute r1 with
     | some (m, []) => some (h, m)
     | _ => none)
  | _ => none

/-! ## The validators (`ChatBotService._is_valid_*`) -/

/-- `_is_valid_phone`: `re.match` of `^[\d\s\-\+\(\)]{7,20}$` against the
stripped input, i.e. 7 to 20 characters all drawn from digits,
whitespace, `-`, `+`, `(`, `)`. -/
def _is_valid_phone (phone : String) : Bool :=
  let cs := (pyStrip phone).toList
  decide (7 ≤ cs.length) && decide (cs.length ≤ 20) &&
    cs.all (fun c => c.isDigit || pyIsSpace c || c = '-' || c = '+' || c = '(' || c = ')')

/-- `_is_valid_date`: parse the stripped input as `%Y-%m-%d`, then
reject dates before `today` or after `today + timedelta(days 90)`;
returns the validity flag and the optional human-readable reason. -/
def _is_valid_date (today : Date) (date_str : String) : Bool × Option String :=
  match strptimeDate (pyStrip date_str) with
  | none => (false, some "Invalid date format. Please use YYYY-MM-DD (e.g., 2025-12-25)")
  | some d =>
      if date_lt d today then (false, some "Date must be in the future")
      else if date_lt (dateAddDays today 90) d then
        (false, some "Cannot book appointments more than 3 months in advance")
      else (true, none)

/-- `_is_valid_time`: parse the stripped input as `%H:%M`, then enforce
business hours 08:00-20:00 and 30-minute granularity. -/
def _is_valid_time (time_str : String) : Bool × Option String :=
  match strptimeTime (pyStrip time_str) with
  | none => (false, some "Invalid time format. Please use HH:MM (e.g., 14:30)")
  | some (hour, minute) =>
      if hour < 8 ∨ 20 ≤ hour then (false, some "Clinic hours are 08:00 to 20:00")
      else if ¬(minute = 0 ∨ minute = 30) then
        (false, some "Please select time on 30-minute intervals (e.g., 14:00 or 14:30)")
      else (true, none)

/-! ## Data model (src/appointment.py, and the external references) -/

/-- `AppointmentStatus` of src/appointment.py. -/
inductive AppointmentStatus
  | SCHEDULED | CONFIRMED | IN_PROGRESS | COMPLETED | CANCELLED | NO_SHOW | RESCHEDULED
deriving DecidableEq

/-- The `.value` string of each status member. -/
def AppointmentStatus.value : AppointmentStatus → String
  | .SCHEDULED => "Scheduled"
  | .CONFIRMED => "Confirmed"
  | .IN_PROGRESS => "In Progress"
  | .COMPLETED => "Completed"
  | .CANCELLED => "Cancelled"
  | .NO_SHOW => "No Show"
  | .RESCHEDULED => "Rescheduled"

/-- `ServiceType` of src/appointment.py. -/
inductive ServiceType
  | CONSULTATION | CLEANING | FILLING | ROOT_CANAL | EXTRACTION | ORTHODONTICS
  | WHITENING | IMPLANT | CROWN | EMERGENCY | OTHER
deriving DecidableEq

/-- The `.value` string of each service member. -/
def ServiceType.value : ServiceType → String
  | .CONSULTATION => "Consultation"
  | .CLEANING => "Cleaning"
  | .FILLING => "Filling"
  | .ROOT_CANAL => "Root Canal"
  | .EXTRACTION => "Extraction"
  | .ORTHODONTICS => "Orthodontics"
  | .WHITENING => "Whitening"
  | .IMPLANT => "Implant"
  | .CROWN => "Crown"
  | .EMERGENCY => "Emergency"
  | .OTHER => "Other"

/-- Iteration order of `ServiceType` (declaration order of the enum). -/
def serviceTypeList : List ServiceType :=
  [.CONSULTATION, .CLEANING, .FILLING, .ROOT_CANAL, .EXTRACTION, .ORTHODONTICS,
   .WHITENING, .IMPLANT, .CROWN, .EMERGENCY, .OTHER]

/-- An appointment reference as the engine consumes it: the fields of
src/appointment.py's `Appointment` that the engine reads. -/
structure Appointment where
  id : String
  patient_name : String
  patient_phone : String
  doctor_name : String
  date : String
  time : String
  service_type : ServiceType
  status : AppointmentStatus
  notes : Option String
deriving DecidableEq

/-- Placeholder appointment used to model Python attribute access that
the control flow guards (it is only read behind an index or presence
check the source has already performed). -/
def defaultAppointment : Appointment :=
  { id := "", patient_name := "", patient_phone := "", doctor_name := ""
    date := "", time := "", service_type := .CONSULTATION
    status := .SCHEDULED, notes := none }

/-- A doctor reference as the engine renders it (supplied by the
external collaborator; the engine reads exactly these attributes). -/
structure Doctor where
  full_name : String
  specialty_value : String
  patient_rating : String
deriving DecidableEq

/-- `ConversationState` of src/chatbot_service.py. -/
inductive ConversationState
  | START | GREETING | PROBLEM_ASSESSMENT | SERVICE_SELECTION | DATE_SELECTION
  | TIME_SELECTION | PHONE_COLLECTION | DOCTOR_SELECTION | CONFIRMATION
  | BOOKING_COMPLETE | INTENT_DETECTION | CANCEL_START | CANCEL_CONFIRMATION
  | RESCHEDULE_START | RESCHEDULE_APPOINTMENT_SELECTION | RESCHEDULE_DATE_SELECTION
  | RESCHEDULE_TIME_SELECTION | RESCHEDULE_CONFIRMATION | VIEW_START | VIEW_RESULTS
deriving DecidableEq

/-- The per-session scratch record `session["data"]`: the keys
`_create_session` seeds plus the keys the cancel/reschedule flows add
(`available_appointments`, `selected_appointment`, `new_date`,
`new_time`), absent modelled as `none` / `[]`. -/
structure SessionData where
  patient_name : String
  problem : Option String
  service_type : Option String
  date : Option String
  time : Option String
  doctor_name : Option String
  phone : Option String
  notes : Option String
  available_appointments : List Appointment
  selected_appointment : Option Appointment
  new_date : Option String
  new_time : Option String
deriving DecidableEq

/-- One conversation session. -/
structure Session where
  state : ConversationState
  user_name : String
  data : SessionData
  validation_errors : List String
  attempt_count : Nat
  created_at : Nat
deriving DecidableEq

/-- The engine's mutable state: `self.sessions`, an insertion-ordered
map from user name to session (modelled as an association list; Python
dict keys are unique). -/
structure ChatBotService where
  sessions : List (String × Session)
deriving DecidableEq

/-- One reading of `datetime.now()`: the engine consults the clock for
the eviction timestamp, the current date and the current hour. -/
structure Env where
  now : Nat
  today : Date
  hour : Nat

/-- Result of the Clinic Gateway's `book_appointment_validated`
persistence call: its `(success, message)` pair, or an exception raised
anywhere inside `_book_appointment`'s try block (`exn`). -/
inductive BookResult
  | ok (message : String)
  | fail (message : String)
  | exn (message : String)
deriving DecidableEq

/-- The keyword arguments `_book_appointment` passes to
`book_appointment_validated`. -/
structure BookRequest where
  patient_name : String
  patient_phone : String
  doctor_name : String
  date : String
  time : String
  service_type : String
  notes : String
deriving DecidableEq

/-- The external Clinic Gateway (spec §6): the lookup and mutation
oracles the engine delegates to, plus the fresh id the `Appointment`
constructor would draw for a new booking. -/
structure ClinicGateway where
  get_patient_appointments : String → List Appointment
  cancel_appointment : String → String → Bool
  reschedule_appointment : String → String → String → Bool
  book_appointment_validated : BookRequest → BookResult
  get_all_doctors : List Doctor
  get_doctor_by_name : String → Option Doctor
  fresh_id : String

/-! ## Session store helpers -/

/-- Lookup in the session map. -/
def dictGet (d : List (String × Session)) (k : String) : Option Session :=
  match d with
  | [] => none
  | (k', v) :: rest => if k' = k then some v else dictGet rest k

/-- Update-or-append in the session map (Python dict assignment). -/
def dictSet (d : List (String × Session)) (k : String) (v : Session) :
    List (String × Session) :=
  match d with
  | [] => [(k, v)]
  | (k', v') :: rest => if k' = k then (k, v) :: rest else (k', v') :: dictSet rest k v

/-- `[s.value for s in ServiceType]`. -/
def available_services : List String := serviceTypeList.map ServiceType.value

/-- `_create_session`. -/
def _create_session (user_name : String) (now : Nat) : Session :=
  { state := ConversationState.START
    user_name := user_name
    data :=
      { patient_name := user_name
        problem := none, service_type := none, date := none, time := none
        doctor_name := none, phone := none, notes := none
        available_appointments := [], selected_appointment := none
        new_date := none, new_time := none }
    validation_errors := []
    attempt_count := 0
    created_at := now }

/-- `_get_or_create_session`. -/
def _get_or_create_session (svc : ChatBotService) (user_name : String) (now : Nat) :
    ChatBotService × Session :=
  match dictGet svc.sessions user_name with
  | some s => (svc, s)
  | none =>
      let s := _create_session user_name now
      (⟨dictSet svc.sessions user_name s⟩, s)

/-- Age test of `_cleanup_old_sessions`: `(now - created).total_seconds()
/ 3600 > max_age_hours`, which over whole seconds is
`now - created > 3600 * max_age_hours`. -/
def sessionExpired (now : Nat) (max_age_hours : Nat) (s : Session) : Bool :=
  decide (3600 * max_age_hours < now - s.created_at)

/-- `_cleanup_old_sessions`: drop every session whose age exceeds
`max_age_hours` (the source collects the expired keys and deletes them,
which over a unique-keyed map is a filter). -/
def _cleanup_old_sessions (svc : ChatBotService) (now : Nat) (max_age_hours : Nat) :
    ChatBotService :=
  ⟨svc.sessions.filter (fun p => !sessionExpired now max_age_hours p.2)⟩

/-! ## Reply-text builders shared by several handlers -/

/-- Lines `  {i}. {item}` of the service menu. -/
def numberedLines : List String → Nat → String
  | [], _ => ""
  | x :: rest, i => "  " ++ toString i ++ ". " ++ x ++ "\n" ++ numberedLines rest (i + 1)

/-- Lines `{i}. {date} at {time} - Dr. {doctor} ({service})` of the
cancel/reschedule appointment listings. -/
def apptLines : List Appointment → Nat → String
  | [], _ => ""
  | apt :: rest, i =>
      toString i ++ ". " ++ apt.date ++ " at " ++ apt.time ++ " - Dr. " ++ apt.doctor_name
        ++ " (" ++ apt.service_type.value ++ ")\n" ++ apptLines rest (i + 1)

/-- Zero-padded decimal rendering. -/
def padZero (width n : Nat) : String :=
  let s := toString n
  ⟨List.replicate (width - s.length) '0'⟩ ++ s

/-- `strftime("%Y-%m-%d")`. -/
def formatDate (d : Date) : String :=
  padZero 4 d.year ++ "-" ++ padZero 2 d.month ++ "-" ++ padZero 2 d.day

/-- Status emoji map of `_handle_view_appointments` (`IN_PROGRESS` is
not in the source's dict, so the default applies). -/
def statusEmoji : AppointmentStatus → String
  | .SCHEDULED => "📅"
  | .CONFIRMED => "✅"
  | .COMPLETED => "✔️"
  | .CANCELLED => "❌"
  | .NO_SHOW => "🚫"
  | .RESCHEDULED => "🔄"
  | .IN_PROGRESS => "❓"

/-- Sort key order of the view listing: `Appointment.get_datetime()`
ascending, i.e. the combined date-time; on the engine's zero-padded
date/time strings that is their lexicographic order. -/
def aptKeyLe (a b : Appointment) : Bool :=
  decide (a.date < b.date ∨ (a.date = b.date ∧ a.time ≤ b.time))

/-- Stable insertion into a list sorted by `aptKeyLe`. -/
def insertSorted (x : Appointment) : List Appointment → List Appointment
  | [] => [x]
  | y :: rest => if aptKeyLe y x then y :: insertSorted x rest else x :: y :: rest

/-- `appointments.sort(key get_datetime)` (a stable sort). -/
def sortAppointments : List Appointment → List Appointment
  | [] => []
  | x :: rest => insertSorted x (sortAppointments rest)

/-- Per-appointment lines of the view listing (Python renders a
`notes` line only when the field is truthy, so an empty string is
skipped too). -/
def viewLines : List Appointment → String
  | [] => ""
  | apt :: rest =>
      statusEmoji apt.status ++ " " ++ apt.date ++ " at " ++ apt.time ++ " - Dr. "
        ++ apt.doctor_name ++ "\n"
        ++ "   Service: " ++ apt.service_type.value ++ " | Status: " ++ apt.status.value ++ "\n"
        ++ (match apt.notes with
            | some nts => if nts = "" then "" else "   Notes: " ++ nts ++ "\n"
            | none => "")
        ++ "\n" ++ viewLines rest

/-! ## State handlers of ChatBotService

Each Python handler mutates the session object in place and returns a
reply string; here a handler maps the session to the updated session
plus the reply, and `get_response` stores the updated session back into
the map. -/

/-- `_greet_user`. -/
def _greet_user (env : Env) (user_name : String) : String :=
  let greeting :=
    if env.hour < 12 then "Good morning"
    else if env.hour < 18 then "Good afternoon"
    else "Good evening"
  greeting ++ ", " ++ user_name ++ "!\n\n"
    ++ "Welcome to DentalClinic Pro - Your appointment assistant.\n"
    ++ "I'm here to help you book an appointment quickly and easily.\n"
    ++ "(Type 'cancel' anytime to exit)"

/-- `_handle_greeting`. -/
def _handle_greeting (env : Env) (session : Session) : Session × String :=
  ({ session with state := ConversationState.GREETING }, _greet_user env session.user_name)

/-- `_handle_problem_assessment`: stores the problem text, picks an
empathetic prefix by keyword, prints the service menu and moves to
`SERVICE_SELECTION` (the intermediate `PROBLEM_ASSESSMENT` assignment is
overwritten before the handler returns). -/
def _handle_problem_assessment (session : Session) (user_input : String) :
    Session × String :=
  let problem_lower := pyLower user_input
  let response :=
    if ["emergency", "urgent", "severe", "pain"].any (fun w => pyIn w problem_lower) then
      "[URGENT] I understand this is urgent! We have emergency slots available.\n\n"
    else if ["clean", "routine", "checkup"].any (fun w => pyIn w problem_lower) then
      "[ROUTINE] Great! Routine maintenance is important for healthy teeth.\n\n"
    else if ["cosmetic", "whiten", "brighten"].any (fun w => pyIn w problem_lower) then
      "[COSMETIC] We offer cosmetic services! Let's get your smile perfect.\n\n"
    else
      "[INFO] Thank you for sharing that. I'm here to help.\n\n"
  let response := response ++ "What service would you like?\n"
      ++ numberedLines (available_services.take 6) 1
      ++ "  ... (" ++ toString available_services.length ++ " services available)\n"
      ++ "\nOr type the service name directly:"
  ({ session with
      data := { session.data with problem := some user_input }
      state := ConversationState.SERVICE_SELECTION },
   response)

/-- `_handle_service_selection`: a 1-based index into the service list,
or else the first service whose lowered name contains the lowered input
as a substring; no match re-prompts with the full list. -/
def _handle_service_selection (env : Env) (session : Session) (user_input : String) :
    Session × String :=
  let user_input_lower := pyLower (pyStrip user_input)
  let byNumber : Option String :=
    match pyInt (pyStrip user_input) with
    | some n =>
        if 0 ≤ n - 1 ∧ n - 1 < (available_services.length : Int) then
          some (available_services.getD (n - 1).toNat "")
        else none
    | none => none
  let selected_service : Option String :=
    match byNumber with
    | some s => some s
    | none =>
        (serviceTypeList.find? (fun st => pyIn user_input_lower (pyLower st.value))).map
          ServiceType.value
  match selected_service with
  | none =>
      (session,
       "[ERROR] I don't recognize '" ++ user_input ++ "'.\n\n"
         ++ "Available services:\n"
         ++ joinWith "\n" (available_services.map (fun s => "  - " ++ s)))
  | some s =>
      ({ session with
          data := { session.data with service_type := some s }
          state := ConversationState.DATE_SELECTION },
       "[OK] Great! You selected: " ++ s ++ "\n\n"
         ++ "[DATE] When would you like to come in?\n"
         ++ "Please provide a date (YYYY-MM-DD)\n"
         ++ "Example: " ++ formatDate (dateAddDays env.today 5))

/-- `_handle_date_selection`. -/
def _handle_date_selection (env : Env) (session : Session) (user_input : String) :
    Session × String :=
  let v := _is_valid_date env.today user_input
  if v.1 then
    ({ session with
        data := { session.data with date := some (pyStrip user_input) }
        state := ConversationState.TIME_SELECTION },
     "[OK] Date confirmed: " ++ pyStrip user_input ++ "\n\n"
       ++ "[TIME] What time works for you?\n"
       ++ "Please provide time in HH:MM format (e.g., 14:30)\n"
       ++ "Available: 08:00 - 20:00 (30-minute intervals)")
  else if pyIsDigitStr (pyStrip user_input) then
    (session,
     "[ERROR] That looks like a service number. If you meant to select a different service, type 'restart' to start over.\n\n"
       ++ pyStrOpt v.2 ++ "\n\nPlease try again (YYYY-MM-DD)")
  else
    (session, "[ERROR] " ++ pyStrOpt v.2 ++ "\n\nPlease try again (YYYY-MM-DD)")

/-- `_handle_time_selection`. -/
def _handle_time_selection (session : Session) (user_input : String) :
    Session × String :=
  let v := _is_valid_time user_input
  if v.1 then
    ({ session with
        data := { session.data with time := some (pyStrip user_input) }
        state := ConversationState.PHONE_COLLECTION },
     "[OK] Time confirmed: " ++ pyStrip user_input ++ "\n\n"
       ++ "[PHONE] What's your phone number?\n"
       ++ "We need this to confirm your appointment and send reminders.")
  else
    (session, "[ERROR] " ++ pyStrOpt v.2 ++ "\n\nPlease try again (HH:MM)")

/-- `_handle_phone_collection`. -/
def _handle_phone_collection (clinic : ClinicGateway) (session : Session)
    (user_input : String) : Session × String :=
  if !_is_valid_phone user_input then
    (session,
     "[ERROR] Please provide a valid phone number (7-20 digits)\n\nExample: +1-555-123-4567")
  else
    let doctors := clinic.get_all_doctors
    let doctors_text :=
      if doctors.isEmpty then "  - Any available doctor (automatic assignment)"
      else
        joinWith "\n"
            ((doctors.take 5).map (fun d =>
              "  - Dr. " ++ d.full_name ++ " (" ++ d.specialty_value ++ ") - Rating: "
                ++ d.patient_rating ++ "/5"))
          ++ (if 5 < doctors.length then
                "\n  ... and " ++ toString (doctors.length - 5) ++ " more doctors"
              else "")
    ({ session with
        data := { session.data with phone := some (pyStrip user_input) }
        state := ConversationState.DOCTOR_SELECTION },
     "[OK] Phone confirmed: " ++ pyStrip user_input ++ "\n\n"
       ++ "[DOCTOR] Which doctor would you prefer?\n" ++ doctors_text
       ++ "\n\nOr type 'any' for next available doctor")

/-- Review summary composed at the end of `_handle_doctor_selection`. -/
def confirmationSummary (data : SessionData) : String :=
  "[REVIEW] Please review your appointment details:\n\n"
    ++ "Name: " ++ data.patient_name ++ "\n"
    ++ "Phone: " ++ pyStrOpt data.phone ++ "\n"
    ++ "Service: " ++ pyStrOpt data.service_type ++ "\n"
    ++ "Date: " ++ pyStrOpt data.date ++ "\n"
    ++ "Time: " ++ pyStrOpt data.time ++ "\n"
    ++ "Doctor: " ++ pyStrOpt data.doctor_name ++ "\n\n"
    ++ "Is this correct? (yes/no)"

/-- `_handle_doctor_selection`. -/
def _handle_doctor_selection (clinic : ClinicGateway) (session : Session)
    (user_input : String) : Session × String :=
  let doctor_input := pyLower (pyStrip user_input)
  let chosen : Option String :=
    if doctor_input = "any" then some "Any"
    else (clinic.get_doctor_by_name user_input).map Doctor.full_name
  match chosen with
  | none =>
      (session,
       "[ERROR] Doctor '" ++ user_input
         ++ "' not found. Please try:\n  - 'any' for automatic assignment\n  - Full doctor name (e.g., 'John Smith')")
  | some nm =>
      let data := { session.data with doctor_name := some nm }
      ({ session with data := data, state := ConversationState.CONFIRMATION },
       confirmationSummary data)

/-- The keyword arguments `_book_appointment` passes to
`book_appointment_validated`, composed from the accumulated draft. -/
def bookRequestOf (data : SessionData) : BookRequest :=
  { patient_name := data.patient_name
    patient_phone := pyStrOpt data.phone
    doctor_name := pyStrOpt data.doctor_name
    date := pyStrOpt data.date
    time := pyStrOpt data.time
    service_type := pyStrOpt data.service_type
    notes := "Patient reported: " ++ pyStrOpt data.problem }

/-- The structured confirmation summary `_book_appointment` echoes on
success. -/
def bookingSuccessText (data : SessionData) (appointment_id : String) : String :=
  "[SUCCESS] Appointment booked successfully!\n\n"
    ++ "Confirmation Details:\n"
    ++ "Appointment ID: " ++ appointment_id ++ "\n"
    ++ "Date: " ++ pyStrOpt data.date ++ " at " ++ pyStrOpt data.time ++ "\n"
    ++ "Doctor: Dr. " ++ pyStrOpt data.doctor_name ++ "\n"
    ++ "Service: " ++ pyStrOpt data.service_type ++ "\n\n"
    ++ "Confirmation sent to " ++ pyStrOpt data.phone ++ "\n"
    ++ "Please call 30 minutes before your appointment.\n\n"
    ++ "Thank you!"

/-- `_book_appointment`: the whole body runs in try/except; the only
session mutation is in the success branch, so a failure reply or a
caught exception (`BookResult.exn`) leaves the session untouched.  The
`Appointment` object the source constructs is only read for its fresh
id, which the gateway record supplies. -/
def _book_appointment (clinic : ClinicGateway) (session : Session) : Session × String :=
  let data := session.data
  let appointment_id := clinic.fresh_id
  match clinic.book_appointment_validated (bookRequestOf data) with
  | BookResult.ok _ =>
      ({ session with state := ConversationState.BOOKING_COMPLETE },
       bookingSuccessText data appointment_id)
  | BookResult.fail message =>
      (session, "[ERROR] Booking failed: " ++ message ++ "\n\nPlease try again or contact support.")
  | BookResult.exn e =>
      (session, "[ERROR] Error booking appointment: " ++ toString e ++ "\n\nPlease try again later.")

/-- `_handle_confirmation` (the booking confirmation step). -/
def _handle_confirmation (clinic : ClinicGateway) (session : Session)
    (user_input : String) : Session × String :=
  let response_lower := pyLower (pyStrip user_input)
  if response_lower ∈ ["yes", "y", "ok", "correct", "sure"] then
    _book_appointment clinic session
  else if response_lower ∈ ["no", "n", "cancel", "edit"] then
    ({ session with state := ConversationState.START },
     "[CANCEL] Appointment cancelled.\n\nType anything to start over.")
  else
    (session, "[ERROR] Please answer with 'yes' or 'no'")

/-- `_handle_followup` (post-booking): a restart replaces the stored
session wholesale with a fresh one. -/
def _handle_followup (env : Env) (session : Session) (user_input : String) :
    Session × String :=
  if pyIn "restart" (pyLower user_input) then
    (_create_session session.user_name env.now,
     "[RESTART] Starting new appointment booking...\n" ++ _greet_user env session.user_name)
  else if ["thank", "thanks", "bye", "goodbye"].any (fun w => pyIn w (pyLower user_input)) then
    (session, "[END] You're welcome! Have a great day and take care of your smile!")
  else
    (session,
     "[INFO] Is there anything else I can help you with?\nType 'restart' to book another appointment or 'bye' to exit.")

/-! ## Intent detection -/

def book_keywords : List String :=
  ["book", "schedule", "appointment", "make", "new", "create", "set up"]

def cancel_keywords : List String := ["cancel", "delete", "remove", "stop"]

def reschedule_keywords : List String := ["reschedule", "change", "modify", "update", "move"]

def view_keywords : List String :=
  ["view", "see", "show", "list", "check", "my", "upcoming", "appointments"]

/-- `_detect_intent`: lower and strip, then test the keyword sets in the
source's order (cancel, reschedule, view, book); substring matching. -/
def _detect_intent (user_input : String) : String :=
  let input_lower := pyLower (pyStrip user_input)
  if cancel_keywords.any (fun k => pyIn k input_lower) then "cancel"
  else if reschedule_keywords.any (fun k => pyIn k input_lower) then "reschedule"
  else if view_keywords.any (fun k => pyIn k input_lower) then "view"
  else if book_keywords.any (fun k => pyIn k input_lower) then "book"
  else "unknown"

/-- `_handle_intent_detection` (unclear intent at `START`). -/
def _handle_intent_detection (session : Session) : Session × String :=
  ({ session with state := ConversationState.INTENT_DETECTION },
   "Hello! I'm your dental clinic assistant.\n\n"
     ++ "What would you like to do?\n\n"
     ++ "1. 📅 Book a new appointment\n"
     ++ "2. ❌ Cancel an existing appointment\n"
     ++ "3. 🔄 Reschedule an appointment\n"
     ++ "4. 👀 View my appointments\n\n"
     ++ "Please type the number or describe what you need:")

/-! ## Cancel flow -/

/-- `_handle_cancel_start`. -/
def _handle_cancel_start (session : Session) : Session × String :=
  ({ session with state := ConversationState.CANCEL_START },
   "[CANCEL] Let's cancel your appointment.\n\nPlease provide your name or phone number to find your appointments:")

/-- `_handle_cancel_appointment_selection` (state `CANCEL_START`): look
up appointments by the raw input; an empty result re-prompts, otherwise
list the cancellable ones and move to `CANCEL_CONFIRMATION`. -/
def _handle_cancel_appointment_selection (clinic : ClinicGateway) (session : Session)
    (user_input : String) : Session × String :=
  let appointments := clinic.get_patient_appointments (pyStrip user_input)
  if appointments.isEmpty then
    (session,
     "[ERROR] No appointments found for '" ++ user_input
       ++ "'.\n\nPlease check your name or phone number and try again.")
  else
    let cancellable := appointments.filter (fun apt =>
      decide (apt.status = AppointmentStatus.SCHEDULED ∨ apt.status = AppointmentStatus.CONFIRMED))
    if cancellable.isEmpty then
      (session,
       "[INFO] You don't have any upcoming appointments that can be cancelled.\n\nAll your appointments are either completed or already cancelled.")
    else
      ({ session with
          data := { session.data with available_appointments := cancellable }
          state := ConversationState.CANCEL_CONFIRMATION },
       "[APPOINTMENTS] Here are your upcoming appointments:\n\n"
         ++ apptLines cancellable 1
         ++ "\nWhich appointment would you like to cancel? (Enter the number)")

/-- `_handle_cancel_confirmation` (state `CANCEL_CONFIRMATION`): a
1-based numeric pick from the stored list, then the gateway's
`cancel_appointment`; success returns to `START`, failure replies with
an error and leaves the session as it was. -/
def _handle_cancel_confirmation (clinic : ClinicGateway) (session : Session)
    (user_input : String) : Session × String :=
  match pyInt (pyStrip user_input) with
  | none => (session, "[ERROR] Please enter a valid number.")
  | some n =>
      let appointment_index : Int := n - 1
      let available_appointments := session.data.available_appointments
      if appointment_index < 0 ∨ (available_appointments.length : Int) ≤ appointment_index then
        (session,
         "[ERROR] Invalid selection. Please enter a number between 1 and "
           ++ toString available_appointments.length)
      else
        let appointment := available_appointments.getD appointment_index.toNat defaultAppointment
        if clinic.cancel_appointment appointment.id "Cancelled via chatbot" then
          ({ session with state := ConversationState.START },
           "[SUCCESS] Appointment cancelled successfully!\n\n"
             ++ "Cancelled: " ++ appointment.date ++ " at " ++ appointment.time
             ++ " with Dr. " ++ appointment.doctor_name
             ++ "\n\nIf you need to book a new appointment, just let me know!")
        else
          (session, "[ERROR] Failed to cancel appointment. Please try again or contact support.")

/-! ## Reschedule flow -/

/-- `_handle_reschedule_start`. -/
def _handle_reschedule_start (session : Session) : Session × String :=
  ({ session with state := ConversationState.RESCHEDULE_START },
   "[RESCHEDULE] Let's reschedule your appointment.\n\nPlease provide your name or phone number to find your appointments:")

/-- `_handle_reschedule_appointment_selection` (state `RESCHEDULE_START`). -/
def _handle_reschedule_appointment_selection (clinic : ClinicGateway) (session : Session)
    (user_input : String) : Session × String :=
  let appointments := clinic.get_patient_appointments (pyStrip user_input)
  if appointments.isEmpty then
    (session,
     "[ERROR] No appointments found for '" ++ user_input
       ++ "'.\n\nPlease check your name or phone number and try again.")
  else
    let reschedulable := appointments.filter (fun apt =>
      decide (apt.status = AppointmentStatus.SCHEDULED ∨ apt.status = AppointmentStatus.CONFIRMED))
    if reschedulable.isEmpty then
      (session,
       "[INFO] You don't have any upcoming appointments that can be rescheduled.\n\nAll your appointments are either completed or cancelled.")
    else
      ({ session with
          data := { session.data with available_appointments := reschedulable }
          state := ConversationState.RESCHEDULE_APPOINTMENT_SELECTION },
       "[APPOINTMENTS] Here are your upcoming appointments:\n\n"
         ++ apptLines reschedulable 1
         ++ "\nWhich appointment would you like to reschedule? (Enter the number)")

/-- `_handle_reschedule_appointment_selection_response` (state
`RESCHEDULE_APPOINTMENT_SELECTION`). -/
def _handle_reschedule_appointment_selection_response (session : Session)
    (user_input : String) : Session × String :=
  match pyInt (pyStrip user_input) with
  | none => (session, "[ERROR] Please enter a valid number.")
  | some n =>
      let appointment_index : Int := n - 1
      let available_appointments := session.data.available_appointments
      if appointment_index < 0 ∨ (available_appointments.length : Int) ≤ appointment_index then
        (session,
         "[ERROR] Invalid selection. Please enter a number between 1 and "
           ++ toString available_appointments.length)
      else
        let appointment := available_appointments.getD appointment_index.toNat defaultAppointment
        ({ session with
            data := { session.data with selected_appointment := some appointment }
            state := ConversationState.RESCHEDULE_DATE_SELECTION },
         "[OK] Selected appointment: " ++ appointment.date ++ " at " ++ appointment.time
           ++ " with Dr. " ++ appointment.doctor_name
           ++ "\n\n[NEW DATE] What is your new preferred date?\nPlease provide date in YYYY-MM-DD format:")

/-- `_handle_reschedule_date_selection` (state `RESCHEDULE_DATE_SELECTION`). -/
def _handle_reschedule_date_selection (env : Env) (session : Session)
    (user_input : String) : Session × String :=
  let v := _is_valid_date env.today user_input
  if v.1 then
    ({ session with
        data := { session.data with new_date := some (pyStrip user_input) }
        state := ConversationState.RESCHEDULE_TIME_SELECTION },
     "[OK] New date confirmed: " ++ pyStrip user_input ++ "\n\n"
       ++ "[NEW TIME] What time works for you?\n"
       ++ "Please provide time in HH:MM format (e.g., 14:30)\n"
       ++ "Available: 08:00 - 20:00 (30-minute intervals)")
  else
    (session, "[ERROR] " ++ pyStrOpt v.2 ++ "\n\nPlease try again (YYYY-MM-DD)")

/-- `_handle_reschedule_time_selection` (state `RESCHEDULE_TIME_SELECTION`);
the source reads `selected_appointment` unconditionally, set by the
preceding state (spec §3's ordering invariant). -/
def _handle_reschedule_time_selection (session : Session) (user_input : String) :
    Session × String :=
  let v := _is_valid_time user_input
  if v.1 then
    let data := { session.data with new_time := some (pyStrip user_input) }
    let appointment := data.selected_appointment.getD defaultAppointment
    ({ session with data := data, state := ConversationState.RESCHEDULE_CONFIRMATION },
     "[REVIEW] Please confirm the rescheduling:\n\n"
       ++ "Current: " ++ appointment.date ++ " at " ++ appointment.time
       ++ " with Dr. " ++ appointment.doctor_name ++ "\n"
       ++ "New: " ++ pyStrOpt data.new_date ++ " at " ++ pyStrOpt data.new_time
       ++ " with Dr. " ++ appointment.doctor_name
       ++ "\n\nIs this correct? (yes/no)")
  else
    (session, "[ERROR] " ++ pyStrOpt v.2 ++ "\n\nPlease try again (HH:MM)")

/-- `_handle_reschedule_confirmation` (state `RESCHEDULE_CONFIRMATION`):
note the negative set here is `no`, `n`, `cancel` only. -/
def _handle_reschedule_confirmation (clinic : ClinicGateway) (session : Session)
    (user_input : String) : Session × String :=
  let response_lower := pyLower (pyStrip user_input)
  if response_lower ∈ ["yes", "y", "ok", "correct", "sure"] then
    let appointment := session.data.selected_appointment.getD defaultAppointment
    let new_date := pyStrOpt session.data.new_date
    let new_time := pyStrOpt session.data.new_time
    if clinic.reschedule_appointment appointment.id new_date new_time then
      ({ session with state := ConversationState.START },
       "[SUCCESS] Appointment rescheduled successfully!\n\n"
         ++ "New appointment: " ++ new_date ++ " at " ++ new_time
         ++ " with Dr. " ++ appointment.doctor_name ++ "\n"
         ++ "Service: " ++ appointment.service_type.value ++ "\n\nThank you!")
    else
      (session, "[ERROR] Failed to reschedule appointment. Please try again or contact support.")
  else if response_lower ∈ ["no", "n", "cancel"] then
    ({ session with state := ConversationState.START },
     "[CANCEL] Rescheduling cancelled.\n\nType anything to start over.")
  else
    (session, "[ERROR] Please answer with 'yes' or 'no'")

/-! ## View flow -/

/-- `_handle_view_start`. -/
def _handle_view_start (session : Session) : Session × String :=
  ({ session with state := ConversationState.VIEW_START },
   "[VIEW] Let's check your appointments.\n\nPlease provide your name or phone number:")

/-- `_handle_view_appointments` (state `VIEW_START`): unlike the cancel
flow, an empty lookup returns the session to `START`. -/
def _handle_view_appointments (clinic : ClinicGateway) (session : Session)
    (user_input : String) : Session × String :=
  let appointments := clinic.get_patient_appointments (pyStrip user_input)
  if appointments.isEmpty then
    ({ session with state := ConversationState.START },
     "[INFO] No appointments found for '" ++ user_input
       ++ "'.\n\nIf you'd like to book an appointment, just let me know!")
  else
    ({ session with state := ConversationState.VIEW_RESULTS },
     "[APPOINTMENTS] Here are your appointments:\n\n"
       ++ viewLines (sortAppointments appointments)
       ++ "Would you like to book a new appointment, cancel, or reschedule any of these? (book/cancel/reschedule/no)")

/-- `_handle_view_followup` (state `VIEW_RESULTS`). -/
def _handle_view_followup (env : Env) (session : Session) (user_input : String) :
    Session × String :=
  let input_lower := pyLower (pyStrip user_input)
  if input_lower ∈ ["book", "booking", "new", "schedule"] then _handle_greeting env session
  else if input_lower ∈ ["cancel", "cancellation"] then _handle_cancel_start session
  else if input_lower ∈ ["reschedule", "change"] then _handle_reschedule_start session
  else if input_lower ∈ ["no", "nothing", "thanks", "bye"] then
    ({ session with state := ConversationState.START },
     "[END] You're welcome! Have a great day and take care of your smile!")
  else
    (session,
     "[INFO] What would you like to do next?\nType 'book' for new appointment, 'cancel' to cancel, 'reschedule' to change, or 'no' to exit.")

/-- `_handle_intent_detection_response` (state `INTENT_DETECTION`). -/
def _handle_intent_detection_response (env : Env) (session : Session)
    (user_input : String) : Session × String :=
  let input_lower := pyLower (pyStrip user_input)
  if input_lower ∈ ["1", "book", "booking", "schedule", "appointment"] then
    _handle_greeting env session
  else if input_lower ∈ ["2", "cancel", "cancellation"] then _handle_cancel_start session
  else if input_lower ∈ ["3", "reschedule", "change"] then _handle_reschedule_start session
  else if input_lower ∈ ["4", "view", "see", "show"] then _handle_view_start session
  else
    (session,
     "[ERROR] I didn't understand that option.\n\nPlease choose:\n1. Book appointment\n2. Cancel appointment\n3. Reschedule appointment\n4. View appointments")

/-! ## The engine entry point -/

/-- Store the handler's updated session under the user's key and pass
the reply through. -/
def storeReply (svc : ChatBotService) (user_name : String) (r : Session × String) :
    ChatBotService × String :=
  (⟨dictSet svc.sessions user_name r.1⟩, r.2)

/-- `get_response`, the engine entry point: opportunistic sweep, session
lookup/creation, the global `cancel`/`exit`/`quit` and `restart`
commands, intent dispatch at `START`, then dispatch by state.  The
sweep trigger is the source's `len(self.sessions) % 10 == 0`, a
session-count test.  The `CONFIRMATION` arm calls
`self._handle_booking_confirmation`, a method the class never defines,
so reaching it raises `AttributeError`: the embedding returns
`Except.error` there and `Except.ok` everywhere else. -/
def get_response (clinic : ClinicGateway) (env : Env) (svc : ChatBotService)
    (user_input0 : String) (user_name : String) :
    Except String (ChatBotService × String) :=
  let svc1 :=
    if svc.sessions.length % 10 = 0 then _cleanup_old_sessions svc env.now 1 else svc
  let p := _get_or_create_session svc1 user_name env.now
  let svc2 := p.1
  let session := p.2
  let state := session.state
  let user_input := pyStrip user_input0
  if pyLower user_input ∈ ["cancel", "exit", "quit"] then
    Except.ok (storeReply svc2 user_name
      ({ session with state := ConversationState.START },
       "Conversation cancelled. Type anything to start over!"))
  else if pyLower user_input = "restart" then
    Except.ok (storeReply svc2 user_name (_handle_greeting env (_create_session user_name env.now)))
  else if state = ConversationState.START then
    let intent := _detect_intent user_input
    if intent = "book" then Except.ok (storeReply svc2 user_name (_handle_greeting env session))
    else if intent = "cancel" then
      Except.ok (storeReply svc2 user_name (_handle_cancel_start session))
    else if intent = "reschedule" then
      Except.ok (storeReply svc2 user_name (_handle_reschedule_start session))
    else if intent = "view" then
      Except.ok (storeReply svc2 user_name (_handle_view_start session))
    else Except.ok (storeReply svc2 user_name (_handle_intent_detection session))
  else
    match state with
    | ConversationState.INTENT_DETECTION =>
        Except.ok (storeReply svc2 user_name (_handle_intent_detection_response env session user_input))
    | ConversationState.GREETING =>
        Except.ok (storeReply svc2 user_name (_handle_problem_assessment session user_input))
    | ConversationState.PROBLEM_ASSESSMENT =>
        Except.ok (storeReply svc2 user_name (_handle_service_selection env session user_input))
    | ConversationState.SERVICE_SELECTION =>
        Except.ok (storeReply svc2 user_name (_handle_date_selection env session user_input))
    | ConversationState.DATE_SELECTION =>
        Except.ok (storeReply svc2 user_name (_handle_time_selection session user_input))
    | ConversationState.TIME_SELECTION =>
        Except.ok (storeReply svc2 user_name (_handle_phone_collection clinic session user_input))
    | ConversationState.PHONE_COLLECTION =>
        Except.ok (storeReply svc2 user_name (_handle_doctor_selection clinic session user_input))
    | ConversationState.DOCTOR_SELECTION =>
        Except.ok (storeReply svc2 user_name (_handle_confirmation clinic session user_input))
    | ConversationState.CONFIRMATION =>
        Except.error "AttributeError: ChatBotService has no attribute _handle_booking_confirmation"
    | ConversationState.BOOKING_COMPLETE =>
        Except.ok (storeReply svc2 user_name (_handle_followup env session user_input))
    | ConversationState.CANCEL_START =>
        Except.ok (storeReply svc2 user_name (_handle_cancel_appointment_selection clinic session user_input))
    | ConversationState.CANCEL_CONFIRMATION =>
        Except.ok (storeReply svc2 user_name (_handle_cancel_confirmation clinic session user_input))
    | ConversationState.RESCHEDULE_START =>
        Except.ok (storeReply svc2 user_name (_handle_reschedule_appointment_selection clinic session user_input))
    | ConversationState.RESCHEDULE_APPOINTMENT_SELECTION =>
        Except.ok (storeReply svc2 user_name (_handle_reschedule_appointment_selection_response session user_input))
    | ConversationState.RESCHEDULE_DATE_SELECTION =>
        Except.ok (storeReply svc2 user_name (_handle_reschedule_date_selection env session user_input))
    | ConversationState.RESCHEDULE_TIME_SELECTION =>
        Except.ok (storeReply svc2 user_name (_handle_reschedule_time_selection session user_input))
    | ConversationState.RESCHEDULE_CONFIRMATION =>
        Except.ok (storeReply svc2 user_name (_handle_reschedule_confirmation clinic session user_input))
    | ConversationState.VIEW_START =>
        Except.ok (storeReply svc2 user_name (_handle_view_appointments clinic session user_input))
    | ConversationState.VIEW_RESULTS =>
        Except.ok (storeReply svc2 user_name (_handle_view_followup env session user_input))
    | ConversationState.START =>
        Except.ok (svc2, "I'm not sure what to do. Type 'restart' to begin again.")

/-! ## Lemmas: session map -/

theorem dictGet_dictSet_self (d : List (String × Session)) (k : String) (v : Session) :
    dictGet (dictSet d k v) k = some v := by
  induction d with
  | nil => simp [dictGet, dictSet]
  | cons a rest ih =>
      obtain ⟨k', v'⟩ := a
      by_cases h : k' = k
      · simp [dictGet, dictSet, h]
      · simp [dictGet, dictSet, h, ih]

theorem dictGet_filter_keep (d : List (String × Session)) (p : String × Session → Bool)
    (k : String) (v : Session) (h : dictGet d k = some v) (hp : p (k, v) = true) :
    dictGet (d.filter p) k = some v := by
  induction d with
  | nil => simp [dictGet] at h
  | cons a rest ih =>
      obtain ⟨k', v'⟩ := a
      by_cases hk : k' = k
      · subst hk
        rw [dictGet, if_pos rfl] at h
        cases h
        simp [List.filter_cons, hp, dictGet]
      · rw [dictGet, if_neg hk] at h
        cases hfp : p (k', v') <;> simp [List.filter_cons, hfp, dictGet, hk, ih h]

/-! ## Lemmas: the string primitives -/

theorem dropWhile_dropWhile {α : Type} (p : α → Bool) (l : List α) :
    (l.dropWhile p).dropWhile p = l.dropWhile p := by
  induction l with
  | nil => simp
  | cons a t ih =>
      by_cases h : p a
      · simpa [List.dropWhile_cons_of_pos h] using ih
      · simp [List.dropWhile_cons_of_neg h]

theorem dropWhile_prefix_self {α : Type} {p : α → Bool} {l l' : List α}
    (hl : l.dropWhile p = l) (hpre : l' <+: l) : l'.dropWhile p = l' := by
  cases l' with
  | nil => simp
  | cons a t =>
      obtain ⟨r, hr⟩ := hpre
      cases l with
      | nil => simp at hr
      | cons b u =>
          have hab : a = b := by
            have := hr
            simp only [List.cons_append] at this
            exact (List.cons.injEq .. ▸ this).1
          have hpb : ¬ p b := by
            intro hb
            have hlen := congrArg List.length hl
            rw [List.dropWhile_cons_of_pos hb] at hlen
            have := (List.dropWhile_sublist (l := u) p).length_le
            simp at hlen
            omega
          subst hab
          exact List.dropWhile_cons_of_neg hpb

theorem pyStripList_idem (cs : List Char) :
    pyStripList (pyStripList cs) = pyStripList cs := by
  unfold pyStripList
  set s1 := cs.dropWhile pyIsSpace with hs1
  set A := s1.reverse.dropWhile pyIsSpace with hA
  have h1 : s1.dropWhile pyIsSpace = s1 := by rw [hs1]; exact dropWhile_dropWhile _ _
  have hAdrop : A.dropWhile pyIsSpace = A := by rw [hA]; exact dropWhile_dropWhile _ _
  have hsuffix : A <:+ s1.reverse := by rw [hA]; exact List.dropWhile_suffix _
  have hpre : A.reverse <+: s1 := by
    have h2 := List.reverse_prefix.mpr hsuffix
    simpa using h2
  have h3 : (A.reverse).dropWhile pyIsSpace = A.reverse := dropWhile_prefix_self h1 hpre
  rw [h3, List.reverse_reverse, hAdrop]

theorem pyStrip_idem (s : String) : pyStrip (pyStrip s) = pyStrip s := by
  unfold pyStrip
  exact congrArg String.mk (pyStripList_idem s.toList)

theorem pyInList_iff (n h : List Char) : pyInList n h = true ↔ n <:+: h := by
  induction h with
  | nil =>
      simp only [pyInList, List.infix_nil, List.isEmpty_iff]
  | cons c t ih =>
      simp [pyInList, List.infix_cons_iff, ih, Bool.or_eq_true]

theorem pyIn_iff (needle hay : String) :
    pyIn needle hay = true ↔ needle.toList <:+: hay.toList :=
  pyInList_iff _ _

/-! ## Lemmas: the calendar

These connect the source's comparisons (tuple order on dates, the
90-day shift) with the chronological day number `toOrdinal`, so the
validator's window can be stated arithmetically. -/

theorem isLeapYear_iff (y : Nat) :
    isLeapYear y = true ↔ ((4 ∣ y ∧ ¬(100 ∣ y)) ∨ 400 ∣ y) := by
  simp [isLeapYear, Nat.dvd_iff_mod_eq_zero, Bool.or_eq_true, Bool.and_eq_true,
    beq_iff_eq, bne_iff_ne]

theorem leapsBefore_succ_of_leap {n : Nat} (h : isLeapYear (n + 1) = true) :
    leapsBefore (n + 1) = leapsBefore n + 1 := by
  have hba : n / 400 ≤ n / 100 := by
    rw [show (400 : Nat) = 100 * 4 by norm_num, ← Nat.div_div_eq_div_mul]
    exact Nat.div_le_self _ _
  have hab : n / 100 ≤ n / 4 := by
    rw [show (100 : Nat) = 4 * 25 by norm_num, ← Nat.div_div_eq_div_mul]
    exact Nat.div_le_self _ _
  have e4 := Nat.succ_div n 4
  have e100 := Nat.succ_div n 100
  have e400 := Nat.succ_div n 400
  rw [isLeapYear_iff] at h
  unfold leapsBefore
  rcases h with ⟨h4, h100⟩ | h400
  · have h400 : ¬ (400 : Nat) ∣ (n + 1) := fun hh => h100 (dvd_trans (by norm_num) hh)
    rw [e4, e100, e400, if_pos h4, if_neg h100, if_neg h400]
    omega
  · have h100 : (100 : Nat) ∣ (n + 1) := dvd_trans (by norm_num) h400
    have h4 : (4 : Nat) ∣ (n + 1) := dvd_trans (by norm_num) h100
    rw [e4, e100, e400, if_pos h4, if_pos h100, if_pos h400]
    omega

theorem leapsBefore_succ_of_noleap {n : Nat} (h : isLeapYear (n + 1) = false) :
    leapsBefore (n + 1) = leapsBefore n := by
  have hba : n / 400 ≤ n / 100 := by
    rw [show (400 : Nat) = 100 * 4 by norm_num, ← Nat.div_div_eq_div_mul]
    exact Nat.div_le_self _ _
  have hab : n / 100 ≤ n / 4 := by
    rw [show (100 : Nat) = 4 * 25 by norm_num, ← Nat.div_div_eq_div_mul]
    exact Nat.div_le_self _ _
  have e4 := Nat.succ_div n 4
  have e100 := Nat.succ_div n 100
  have e400 := Nat.succ_div n 400
  have h' : ¬ (isLeapYear (n + 1) = true) := by simp [h]
  rw [isLeapYear_iff] at h'
  push_neg at h'
  obtain ⟨himp, h400⟩ := h'
  unfold leapsBefore
  by_cases h4 : (4 : Nat) ∣ (n + 1)
  · have h100 : (100 : Nat) ∣ (n + 1) := himp h4
    rw [e4, e100, e400, if_pos h4, if_pos h100, if_neg h400]
    omega
  · have h100 : ¬ (100 : Nat) ∣ (n + 1) := fun hh => h4 (dvd_trans (by norm_num) hh)
    rw [e4, e100, e400, if_neg h4, if_neg h100, if_neg h400]
    omega

theorem daysBeforeYear_succ {y : Nat} (hy : 1 ≤ y) :
    daysBeforeYear (y + 1) = daysBeforeYear y + daysInYearL (isLeapYear y) := by
  obtain ⟨m, rfl⟩ : ∃ m, y = m + 1 := ⟨y - 1, by omega⟩
  cases hL : isLeapYear (m + 1) with
  | false =>
      rw [show daysInYearL false = 365 from rfl]
      unfold daysBeforeYear
      simp only [Nat.add_sub_cancel]
      rw [leapsBefore_succ_of_noleap hL]
      omega
  | true =>
      rw [show daysInYearL true = 366 from rfl]
      unfold daysBeforeYear
      simp only [Nat.add_sub_cancel]
      rw [leapsBefore_succ_of_leap hL]
      omega

theorem daysBeforeYear_le_add (y k : Nat) :
    daysBeforeYear y ≤ daysBeforeYear (y + k) := by
  induction k with
  | zero => exact Nat.le_refl _
  | succ k ih =>
      rcases Nat.eq_zero_or_pos (y + k) with h0 | hpos
      · have hy : y = 0 := by omega
        have hk : k = 0 := by omega
        subst hy; subst hk
        decide
      · calc daysBeforeYear y ≤ daysBeforeYear (y + k) := ih
          _ ≤ daysBeforeYear (y + k + 1) := by
              rw [daysBeforeYear_succ hpos]; exact Nat.le_add_right _ _

theorem daysBeforeYear_mono {y y' : Nat} (h : y ≤ y') :
    daysBeforeYear y ≤ daysBeforeYear y' := by
  obtain ⟨k, rfl⟩ := Nat.le.dest h
  exact daysBeforeYear_le_add y k

theorem dbm_mono (leap : Bool) : ∀ m' < 13, ∀ m < m', 1 ≤ m →
    daysBeforeMonth leap m + daysInMonthL leap m ≤ daysBeforeMonth leap m' := by
  cases leap <;> decide

theorem dbm_le_year (leap : Bool) : ∀ m < 13, 1 ≤ m →
    daysBeforeMonth leap m + daysInMonthL leap m ≤ daysInYearL leap := by
  cases leap <;> decide

theorem dbm_succ (leap : Bool) : ∀ m < 12, 1 ≤ m →
    daysBeforeMonth leap (m + 1) = daysBeforeMonth leap m + daysInMonthL leap m := by
  cases leap <;> decide

theorem dim_pos (leap : Bool) : ∀ m < 13, 1 ≤ daysInMonthL leap m := by
  cases leap <;> decide

theorem dbm_one (leap : Bool) : daysBeforeMonth leap 1 = 0 := by
  cases leap <;> decide

theorem dbm_twelve (leap : Bool) :
    daysBeforeMonth leap 12 + daysInMonthL leap 12 = daysInYearL leap := by
  cases leap <;> decide

theorem nextDay_ok_ord {d : Date} (hd : dateOk d) :
    dateOk (nextDay d) ∧ toOrdinal (nextDay d) = toOrdinal d + 1 := by
  obtain ⟨hy, hm1, hm2, hd1, hd2⟩ := hd
  unfold daysInMonth at hd2
  unfold nextDay
  by_cases h1 : d.day < daysInMonth d.year d.month
  · rw [if_pos h1]
    unfold daysInMonth at h1
    unfold dateOk toOrdinal daysInMonth
    dsimp only
    refine ⟨⟨hy, hm1, hm2, by omega, by omega⟩, by omega⟩
  · rw [if_neg h1]
    unfold daysInMonth at h1
    have hdm : d.day = daysInMonthL (isLeapYear d.year) d.month := by omega
    by_cases h2 : d.month < 12
    · rw [if_pos h2]
      unfold dateOk toOrdinal daysInMonth
      dsimp only
      have hpos := dim_pos (isLeapYear d.year) (d.month + 1) (by omega)
      have hsucc := dbm_succ (isLeapYear d.year) d.month h2 hm1
      refine ⟨⟨hy, by omega, by omega, by omega, hpos⟩, by omega⟩
    · rw [if_neg h2]
      have hm12 : d.month = 12 := by omega
      unfold dateOk toOrdinal daysInMonth
      dsimp only
      have hpos := dim_pos (isLeapYear (d.year + 1)) 1 (by omega)
      have hsucc := daysBeforeYear_succ hy
      have h12 := dbm_twelve (isLeapYear d.year)
      have hone := dbm_one (isLeapYear (d.year + 1))
      rw [hm12] at hdm
      refine ⟨⟨by omega, by omega, by omega, by omega, hpos⟩, ?_⟩
      rw [hone, hsucc, hm12]
      omega

theorem dateAddDays_ok_ord {d : Date} (hd : dateOk d) (n : Nat) :
    dateOk (dateAddDays d n) ∧ toOrdinal (dateAddDays d n) = toOrdinal d + n := by
  induction n with
  | zero => exact ⟨hd, rfl⟩
  | succ n ih =>
      obtain ⟨h1, h2⟩ := ih
      obtain ⟨h3, h4⟩ := nextDay_ok_ord h1
      refine ⟨h3, ?_⟩
      show toOrdinal (nextDay (dateAddDays d n)) = toOrdinal d + (n + 1)
      omega

theorem toOrdinal_lt_of_lex {a b : Date} (ha : dateOk a) (hb : dateOk b)
    (h : a.year < b.year ∨ (a.year = b.year ∧
      (a.month < b.month ∨ (a.month = b.month ∧ a.day < b.day)))) :
    toOrdinal a < toOrdinal b := by
  obtain ⟨hay, ham1, ham2, had1, had2⟩ := ha
  obtain ⟨hby, hbm1, hbm2, hbd1, hbd2⟩ := hb
  unfold daysInMonth at had2 hbd2
  unfold toOrdinal
  rcases h with hy | ⟨hy, hm | ⟨hm, hd⟩⟩
  · have hA := dbm_le_year (isLeapYear a.year) a.month (by omega) ham1
    have hB := (daysBeforeYear_succ hay).symm
    have hC : daysBeforeYear (a.year + 1) ≤ daysBeforeYear b.year :=
      daysBeforeYear_mono (by omega)
    omega
  · rw [hy]
    rw [hy] at had2
    have := dbm_mono (isLeapYear b.year) b.month (by omega) a.month hm ham1
    omega
  · rw [hy, hm]
    omega

theorem date_lt_iff_toOrdinal {a b : Date} (ha : dateOk a) (hb : dateOk b) :
    date_lt a b = true ↔ toOrdinal a < toOrdinal b := by
  unfold date_lt
  rw [decide_eq_true_eq]
  constructor
  · exact toOrdinal_lt_of_lex ha hb
  · intro h
    by_contra hlex
    have htri : b.year < a.year ∨ (b.year = a.year ∧
        (b.month < a.month ∨ (b.month = a.month ∧ b.day ≤ a.day))) := by omega
    rcases htri with h' | ⟨h1, h2 | ⟨h2, h3⟩⟩
    · have := toOrdinal_lt_of_lex hb ha (Or.inl h')
      omega
    · have := toOrdinal_lt_of_lex hb ha (Or.inr ⟨h1, Or.inl h2⟩)
      omega
    · have hle : toOrdinal b ≤ toOrdinal a := by
        unfold toOrdinal
        rw [h1, h2]
        omega
      omega

theorem strptimeDate_ok {s : String} {d : Date}
    (h : strptimeDate s = some d) : dateOk d := by
  unfold strptimeDate at h
  repeat' split at h
  all_goals simp_all
  rename_i hcond
  obtain ⟨h1, h2, h3, h4, h5⟩ := hcond
  obtain rfl := h.symm
  exact ⟨h1, h2, h3, h4, h5⟩

/-! ## Claim C6 -/

/-- C6: for every input string, `_is_valid_date` accepts exactly the
strings that parse as `%Y-%m-%d` and denote a date in the closed
chronological window `[today, today + 90 days]`; strings that do not
parse, dates strictly before today, and dates more than 90 days ahead
are each rejected with their own reason, and the three reasons are
pairwise distinct. -/
theorem date_validator_window (today : Date) (s : String) (htoday : dateOk today) :
    ((_is_valid_date today s).1 = true ↔
      ∃ d, strptimeDate (pyStrip s) = some d ∧
        toOrdinal today ≤ toOrdinal d ∧ toOrdinal d ≤ toOrdinal today + 90) ∧
    (strptimeDate (pyStrip s) = none →
      (_is_valid_date today s).2 =
        some "Invalid date format. Please use YYYY-MM-DD (e.g., 2025-12-25)") ∧
    (∀ d, strptimeDate (pyStrip s) = some d → toOrdinal d < toOrdinal today →
      (_is_valid_date today s).2 = some "Date must be in the future") ∧
    (∀ d, strptimeDate (pyStrip s) = some d → toOrdinal today + 90 < toOrdinal d →
      (_is_valid_date today s).2 =
        some "Cannot book appointments more than 3 months in advance") ∧
    ("Invalid date format. Please use YYYY-MM-DD (e.g., 2025-12-25)" ≠
        "Date must be in the future" ∧
      "Invalid date format. Please use YYYY-MM-DD (e.g., 2025-12-25)" ≠
        "Cannot book appointments more than 3 months in advance" ∧
      "Date must be in the future" ≠
        "Cannot book appointments more than 3 months in advance") := by
  have h90 := dateAddDays_ok_ord htoday 90
  have hdistinct :
      ("Invalid date format. Please use YYYY-MM-DD (e.g., 2025-12-25)" ≠
          "Date must be in the future" ∧
        "Invalid date format. Please use YYYY-MM-DD (e.g., 2025-12-25)" ≠
          "Cannot book appointments more than 3 months in advance" ∧
        "Date must be in the future" ≠
          "Cannot book appointments more than 3 months in advance") := by
    refine ⟨?_, ?_, ?_⟩ <;> decide
  rcases hparse : strptimeDate (pyStrip s) with _ | d
  · unfold _is_valid_date
    rw [hparse]
    refine ⟨by simp, fun _ => rfl, ?_, ?_, hdistinct⟩
    · intro d hd
      cases hd
    · intro d hd
      cases hd
  · have hd := strptimeDate_ok hparse
    have hord1 : date_lt d today = true ↔ toOrdinal d < toOrdinal today :=
      date_lt_iff_toOrdinal hd htoday
    have hord2 : date_lt (dateAddDays today 90) d = true ↔
        toOrdinal today + 90 < toOrdinal d := by
      rw [date_lt_iff_toOrdinal h90.1 hd, h90.2]
    unfold _is_valid_date
    rw [hparse]
    dsimp only
    split_ifs with hb1 hb2
    · have hlt := hord1.mp hb1
      refine ⟨?_, ?_, ?_, ?_, hdistinct⟩
      · simp only [Bool.false_eq_true, false_iff]
        rintro ⟨d', hd', hge, _⟩
        cases hd'
        omega
      · intro hnone
        cases hnone
      · intro d' hd' hgt
        cases hd'
        rfl
      · intro d' hd' hgt
        cases hd'
        omega
    · have hgt := hord2.mp hb2
      refine ⟨?_, ?_, ?_, ?_, hdistinct⟩
      · simp only [Bool.false_eq_true, false_iff]
        rintro ⟨d', hd', _, hle⟩
        cases hd'
        omega
      · intro hnone
        cases hnone
      · intro d' hd' hlt
        cases hd'
        have := hord1.mpr hlt
        exact absurd this hb1
      · intro d' hd' hgt
        cases hd'
        rfl
    · have hge : ¬ toOrdinal d < toOrdinal today := fun hh => hb1 (hord1.mpr hh)
      have hle : ¬ toOrdinal today + 90 < toOrdinal d := fun hh => hb2 (hord2.mpr hh)
      refine ⟨?_, ?_, ?_, ?_, hdistinct⟩
      · simp only [true_iff]
        exact ⟨d, rfl, by omega, by omega⟩
      · intro hnone
        cases hnone
      · intro d' hd' hlt
        cases hd'
        omega
      · intro d' hd' hgt
        cases hd'
        omega

/-- Witness for C6 at the concrete clock date 2025-10-12 and input
string 2025-12-25. -/
theorem date_validator_window_witness :
    dateOk ⟨2025, 10, 12⟩ ∧
    (((_is_valid_date ⟨2025, 10, 12⟩ "2025-12-25").1 = true ↔
      ∃ d, strptimeDate (pyStrip "2025-12-25") = some d ∧
        toOrdinal ⟨2025, 10, 12⟩ ≤ toOrdinal d ∧
        toOrdinal d ≤ toOrdinal ⟨2025, 10, 12⟩ + 90) ∧
    (strptimeDate (pyStrip "2025-12-25") = none →
      (_is_valid_date ⟨2025, 10, 12⟩ "2025-12-25").2 =
        some "Invalid date format. Please use YYYY-MM-DD (e.g., 2025-12-25)") ∧
    (∀ d, strptimeDate (pyStrip "2025-12-25") = some d →
      toOrdinal d < toOrdinal ⟨2025, 10, 12⟩ →
      (_is_valid_date ⟨2025, 10, 12⟩ "2025-12-25").2 = some "Date must be in the future") ∧
    (∀ d, strptimeDate (pyStrip "2025-12-25") = some d →
      toOrdinal ⟨2025, 10, 12⟩ + 90 < toOrdinal d →
      (_is_valid_date ⟨2025, 10, 12⟩ "2025-12-25").2 =
        some "Cannot book appointments more than 3 months in advance") ∧
    ("Invalid date format. Please use YYYY-MM-DD (e.g., 2025-12-25)" ≠
        "Date must be in the future" ∧
      "Invalid date format. Please use YYYY-MM-DD (e.g., 2025-12-25)" ≠
        "Cannot book appointments more than 3 months in advance" ∧
      "Date must be in the future" ≠
        "Cannot book appointments more than 3 months in advance")) :=
  ⟨by decide, date_validator_window ⟨2025, 10, 12⟩ "2025-12-25" (by decide)⟩

/-! ## Claim C7 -/

/-- C7: for every input string, `_is_valid_time` accepts exactly the
strings that parse as `%H:%M` with hour in `[8, 20)` and minute in
`{0, 30}`; in particular `07:30`, `20:00` and `14:15` are rejected
while `08:00` and `19:30` are accepted. -/
theorem time_validator_window :
    (∀ s : String, (_is_valid_time s).1 = true ↔
      ∃ h m, strptimeTime (pyStrip s) = some (h, m) ∧
        8 ≤ h ∧ h < 20 ∧ (m = 0 ∨ m = 30)) ∧
    (_is_valid_time "07:30").1 = false ∧
    (_is_valid_time "20:00").1 = false ∧
    (_is_valid_time "14:15").1 = false ∧
    (_is_valid_time "08:00").1 = true ∧
    (_is_valid_time "19:30").1 = true := by
  refine ⟨?_, by decide, by decide, by decide, by decide, by decide⟩
  intro s
  rcases hp : strptimeTime (pyStrip s) with _ | ⟨h, m⟩
  · unfold _is_valid_time
    rw [hp]
    simp
  · unfold _is_valid_time
    rw [hp]
    dsimp only
    split_ifs with hb1 hb2
    · simp only [Bool.false_eq_true, false_iff]
      rintro ⟨h', m', heq, hge, hlt, _⟩
      cases heq
      omega
    · simp only [true_iff]
      exact ⟨h, m, rfl, by omega, by omega, hb2⟩
    · simp only [Bool.false_eq_true, false_iff]
      rintro ⟨h', m', heq, _, _, hm⟩
      cases heq
      exact hb2 hm

/-! ## Concrete fixtures used by witnesses and counterexamples -/

/-- A concrete gateway: no stored appointments, mutations succeed,
bookings succeed. -/
def wGateway : ClinicGateway :=
  { get_patient_appointments := fun _ => []
    cancel_appointment := fun _ _ => true
    reschedule_appointment := fun _ _ _ => true
    book_appointment_validated := fun _ => BookResult.ok "ok"
    get_all_doctors := []
    get_doctor_by_name := fun _ => none
    fresh_id := "ab12cd34" }

/-- A concrete clock reading. -/
def wEnv : Env := { now := 10000, today := ⟨2025, 10, 12⟩, hour := 10 }

/-- A session sitting in the cancel flow's `CANCEL_START` state. -/
def sessCancelStart : Session :=
  { _create_session "bob" 10000 with state := ConversationState.CANCEL_START }

/-- An engine whose only session is `sessCancelStart`. -/
def wSvcCancel : ChatBotService := ⟨[("bob", sessCancelStart)]⟩

/-- An engine whose only session is a fresh `START` session. -/
def wSvcStart : ChatBotService := ⟨[("alice", _create_session "alice" 10000)]⟩

/-! ## Claim C8 -/

/-- A keyword set hits the (lowered, stripped) input when one of its
members occurs in it as a contiguous substring. -/
def keywordHit (ks : List String) (low : String) : Prop :=
  ∃ k ∈ ks, k.toList <:+: low.toList

/-- C8: `_detect_intent` lower-cases and trims the input and tests the
fixed keyword sets by substring in the priority order cancel,
reschedule, view, book, returning the first hit and `"unknown"` when
none hits; in particular `"cancel my reschedule"` classifies as cancel. -/
theorem intent_priority_order :
    (∀ s : String,
      (_detect_intent s = "cancel" ↔
        keywordHit cancel_keywords (pyLower (pyStrip s))) ∧
      (_detect_intent s = "reschedule" ↔
        (¬ keywordHit cancel_keywords (pyLower (pyStrip s)) ∧
          keywordHit reschedule_keywords (pyLower (pyStrip s)))) ∧
      (_detect_intent s = "view" ↔
        (¬ keywordHit cancel_keywords (pyLower (pyStrip s)) ∧
          ¬ keywordHit reschedule_keywords (pyLower (pyStrip s)) ∧
          keywordHit view_keywords (pyLower (pyStrip s)))) ∧
      (_detect_intent s = "book" ↔
        (¬ keywordHit cancel_keywords (pyLower (pyStrip s)) ∧
          ¬ keywordHit reschedule_keywords (pyLower (pyStrip s)) ∧
          ¬ keywordHit view_keywords (pyLower (pyStrip s)) ∧
          keywordHit book_keywords (pyLower (pyStrip s)))) ∧
      (_detect_intent s = "unknown" ↔
        (¬ keywordHit cancel_keywords (pyLower (pyStrip s)) ∧
          ¬ keywordHit reschedule_keywords (pyLower (pyStrip s)) ∧
          ¬ keywordHit view_keywords (pyLower (pyStrip s)) ∧
          ¬ keywordHit book_keywords (pyLower (pyStrip s))))) ∧
    _detect_intent "cancel my reschedule" = "cancel" := by
  have hany : ∀ (ks : List String) (low : String),
      ks.any (fun k => pyIn k low) = true ↔ keywordHit ks low := by
    intro ks low
    simp [pyIn_iff, keywordHit]
  refine ⟨?_, by decide⟩
  intro s
  unfold _detect_intent
  dsimp only
  by_cases hc : cancel_keywords.any (fun k => pyIn k (pyLower (pyStrip s))) = true
  · rw [if_pos hc]
    have hhit := (hany _ _).mp hc
    refine ⟨⟨fun _ => hhit, fun _ => rfl⟩, ?_, ?_, ?_, ?_⟩
    · exact ⟨fun h => absurd h (by decide), fun ⟨hnc, _⟩ => absurd hhit hnc⟩
    · exact ⟨fun h => absurd h (by decide), fun ⟨hnc, _, _⟩ => absurd hhit hnc⟩
    · exact ⟨fun h => absurd h (by decide), fun ⟨hnc, _, _, _⟩ => absurd hhit hnc⟩
    · exact ⟨fun h => absurd h (by decide), fun ⟨hnc, _, _, _⟩ => absurd hhit hnc⟩
  · rw [if_neg hc]
    have hnc : ¬ keywordHit cancel_keywords (pyLower (pyStrip s)) :=
      fun hh => hc ((hany _ _).mpr hh)
    by_cases hr : reschedule_keywords.any (fun k => pyIn k (pyLower (pyStrip s))) = true
    · rw [if_pos hr]
      have hhit := (hany _ _).mp hr
      refine ⟨?_, ⟨fun _ => ⟨hnc, hhit⟩, fun _ => rfl⟩, ?_, ?_, ?_⟩
      · exact ⟨fun h => absurd h (by decide), fun hh => absurd hh hnc⟩
      · exact ⟨fun h => absurd h (by decide), fun ⟨_, hnr, _⟩ => absurd hhit hnr⟩
      · exact ⟨fun h => absurd h (by decide), fun ⟨_, hnr, _, _⟩ => absurd hhit hnr⟩
      · exact ⟨fun h => absurd h (by decide), fun ⟨_, hnr, _, _⟩ => absurd hhit hnr⟩
    · rw [if_neg hr]
      have hnr : ¬ keywordHit reschedule_keywords (pyLower (pyStrip s)) :=
        fun hh => hr ((hany _ _).mpr hh)
      by_cases hv : view_keywords.any (fun k => pyIn k (pyLower (pyStrip s))) = true
      · rw [if_pos hv]
        have hhit := (hany _ _).mp hv
        refine ⟨?_, ?_, ⟨fun _ => ⟨hnc, hnr, hhit⟩, fun _ => rfl⟩, ?_, ?_⟩
        · exact ⟨fun h => absurd h (by decide), fun hh => absurd hh hnc⟩
        · exact ⟨fun h => absurd h (by decide), fun ⟨_, hh⟩ => absurd hh hnr⟩
        · exact ⟨fun h => absurd h (by decide), fun ⟨_, _, hnv, _⟩ => absurd hhit hnv⟩
        · exact ⟨fun h => absurd h (by decide), fun ⟨_, _, hnv, _⟩ => absurd hhit hnv⟩
      · rw [if_neg hv]
        have hnv : ¬ keywordHit view_keywords (pyLower (pyStrip s)) :=
          fun hh => hv ((hany _ _).mpr hh)
        by_cases hb : book_keywords.any (fun k => pyIn k (pyLower (pyStrip s))) = true
        · rw [if_pos hb]
          have hhit := (hany _ _).mp hb
          refine ⟨?_, ?_, ?_, ⟨fun _ => ⟨hnc, hnr, hnv, hhit⟩, fun _ => rfl⟩, ?_⟩
          · exact ⟨fun h => absurd h (by decide), fun hh => absurd hh hnc⟩
          · exact ⟨fun h => absurd h (by decide), fun ⟨_, hh⟩ => absurd hh hnr⟩
          · exact ⟨fun h => absurd h (by decide), fun ⟨_, _, hh⟩ => absurd hh hnv⟩
          · exact ⟨fun h => absurd h (by decide), fun ⟨_, _, _, hnb⟩ => absurd hhit hnb⟩
        · rw [if_neg hb]
          have hnb : ¬ keywordHit book_keywords (pyLower (pyStrip s)) :=
            fun hh => hb ((hany _ _).mpr hh)
          refine ⟨?_, ?_, ?_, ?_, ⟨fun _ => ⟨hnc, hnr, hnv, hnb⟩, fun _ => rfl⟩⟩
          · exact ⟨fun h => absurd h (by decide), fun hh => absurd hh hnc⟩
          · exact ⟨fun h => absurd h (by decide), fun ⟨_, hh⟩ => absurd hh hnr⟩
          · exact ⟨fun h => absurd h (by decide), fun ⟨_, _, hh⟩ => absurd hh hnv⟩
          · exact ⟨fun h => absurd h (by decide), fun ⟨_, _, _, hh⟩ => absurd hh hnb⟩

/-! ## Claim C2 -/

/-- C2: for every engine state and every user, an input whose trimmed
lowercase form is `cancel`, `exit` or `quit` makes `get_response`
return the abort reply with the user's session forced to `START`,
whatever state it was in and however much draft had been collected. -/
theorem global_cancel_overrides (clinic : ClinicGateway) (env : Env)
    (svc : ChatBotService) (user_input user_name : String)
    (h : pyLower (pyStrip user_input) ∈ (["cancel", "exit", "quit"] : List String)) :
    ∃ svc' : ChatBotService, ∃ s' : Session,
      get_response clinic env svc user_input user_name =
        Except.ok (svc', "Conversation cancelled. Type anything to start over!") ∧
      dictGet svc'.sessions user_name = some s' ∧
      s'.state = ConversationState.START := by
  simp only [get_response]
  rw [if_pos h]
  simp only [storeReply]
  exact ⟨_, _, rfl, dictGet_dictSet_self _ _ _, rfl⟩

/-- Witness for C2: the padded input `"  EXIT "` from a user mid-way in
the cancel flow. -/
theorem global_cancel_overrides_witness :
    (pyLower (pyStrip "  EXIT ") ∈ (["cancel", "exit", "quit"] : List String)) ∧
    (∃ svc' : ChatBotService, ∃ s' : Session,
      get_response wGateway wEnv wSvcCancel "  EXIT " "bob" =
        Except.ok (svc', "Conversation cancelled. Type anything to start over!") ∧
      dictGet svc'.sessions "bob" = some s' ∧
      s'.state = ConversationState.START) :=
  ⟨by decide, global_cancel_overrides wGateway wEnv wSvcCancel "  EXIT " "bob" (by decide)⟩

/-! ## Claim C10 -/

/-- C10: in the `START` state an input whose trimmed lowercase form is
`cancel`, `exit` or `quit` is consumed by the global-command branch:
the reply is the abort message, the session stays in `START` (never
`CANCEL_START`), and for the bare word `cancel` this happens although
the intent classifier itself would map that input to the cancel
intent. -/
theorem start_cancel_global_override (clinic : ClinicGateway) (env : Env)
    (svc : ChatBotService) (user_name input : String) (sess : Session)
    (hs : dictGet svc.sessions user_name = some sess)
    (hstart : sess.state = ConversationState.START)
    (h : pyLower (pyStrip input) ∈ (["cancel", "exit", "quit"] : List String)) :
    ∃ svc' : ChatBotService, ∃ s' : Session,
      get_response clinic env svc input user_name =
        Except.ok (svc', "Conversation cancelled. Type anything to start over!") ∧
      dictGet svc'.sessions user_name = some s' ∧
      s'.state = ConversationState.START ∧
      s'.state ≠ ConversationState.CANCEL_START ∧
      "Conversation cancelled. Type anything to start over!" ≠
        (_handle_cancel_start sess).2 ∧
      (pyLower (pyStrip input) = "cancel" → _detect_intent (pyStrip input) = "cancel") := by
  simp only [get_response]
  rw [if_pos h]
  simp only [storeReply]
  refine ⟨_, _, rfl, dictGet_dictSet_self _ _ _, rfl, ?_, ?_, ?_⟩
  · dsimp only
    decide
  · unfold _handle_cancel_start
    dsimp only
    decide
  · intro hc
    unfold _detect_intent
    dsimp only
    rw [pyStrip_idem, hc]
    rfl

/-- Witness for C10: the bare first message `"cancel"` from a user whose
session is a fresh `START` session. -/
theorem start_cancel_global_override_witness :
    dictGet wSvcStart.sessions "alice" = some (_create_session "alice" 10000) ∧
    (_create_session "alice" 10000).state = ConversationState.START ∧
    (∃ svc' : ChatBotService, ∃ s' : Session,
      get_response wGateway wEnv wSvcStart "cancel" "alice" =
        Except.ok (svc', "Conversation cancelled. Type anything to start over!") ∧
      dictGet svc'.sessions "alice" = some s' ∧
      s'.state = ConversationState.START ∧
      s'.state ≠ ConversationState.CANCEL_START ∧
      "Conversation cancelled. Type anything to start over!" ≠
        (_handle_cancel_start (_create_session "alice" 10000)).2 ∧
      (pyLower (pyStrip "cancel") = "cancel" →
        _detect_intent (pyStrip "cancel") = "cancel")) :=
  ⟨rfl, rfl,
    start_cancel_global_override wGateway wEnv wSvcStart "alice" "cancel"
      (_create_session "alice" 10000) rfl rfl (by decide)⟩

/-! ## Claim C3 -/

/-- C3 as stated is false on the code: with zero appointments found,
the cancel flow replies with the no-appointments message but leaves the
session in `CANCEL_START` (a re-prompt), it does not set it back to
`START`. -/
theorem cancel_lookup_miss_counterexample :
    ((get_response wGateway wEnv wSvcCancel "bob" "bob").toOption.map
        (fun r => (r.2, (dictGet r.1.sessions "bob").map Session.state))) =
      some ("[ERROR] No appointments found for 'bob'.\n\nPlease check your name or phone number and try again.",
        some ConversationState.CANCEL_START) ∧
    ConversationState.CANCEL_START ≠ ConversationState.START := by
  constructor
  · rfl
  · decide

/-- C3 (amended): a `CANCEL_START` lookup with zero results replies
with the no-appointments message and leaves the session unchanged in
`CANCEL_START` — a re-prompt — and in particular never reaches
`CANCEL_CONFIRMATION` (nor `START`). -/
theorem cancel_lookup_miss_reprompts (clinic : ClinicGateway) (env : Env)
    (svc : ChatBotService) (user_name input : String) (sess : Session)
    (hs : dictGet svc.sessions user_name = some sess)
    (hstate : sess.state = ConversationState.CANCEL_START)
    (hfresh : sessionExpired env.now 1 sess = false)
    (hg : pyLower (pyStrip input) ∉ (["cancel", "exit", "quit"] : List String))
    (hr : pyLower (pyStrip input) ≠ "restart")
    (hmiss : clinic.get_patient_appointments (pyStrip input) = []) :
    ∃ svc' : ChatBotService,
      get_response clinic env svc input user_name =
        Except.ok (svc',
          "[ERROR] No appointments found for '" ++ pyStrip input ++
            "'.\n\nPlease check your name or phone number and try again.") ∧
      dictGet svc'.sessions user_name = some sess ∧
      sess.state = ConversationState.CANCEL_START ∧
      sess.state ≠ ConversationState.START ∧
      sess.state ≠ ConversationState.CANCEL_CONFIRMATION := by
  have hs1 : dictGet
      (if svc.sessions.length % 10 = 0 then _cleanup_old_sessions svc env.now 1
       else svc).sessions user_name = some sess := by
    split
    · unfold _cleanup_old_sessions
      exact dictGet_filter_keep _ _ _ _ hs (by simp [hfresh])
    · exact hs
  simp only [get_response, _get_or_create_session]
  rw [hs1]
  dsimp only
  rw [if_neg hg, if_neg hr, hstate]
  rw [if_neg (by decide : ¬ (ConversationState.CANCEL_START = ConversationState.START))]
  dsimp only
  unfold _handle_cancel_appointment_selection
  rw [pyStrip_idem, hmiss]
  dsimp only [List.isEmpty_nil]
  rw [if_pos rfl]
  simp only [storeReply]
  exact ⟨_, rfl, dictGet_dictSet_self _ _ _, trivial, by decide, by decide⟩

/-- Witness for the amended C3 at a concrete engine: user `bob` in
`CANCEL_START`, gateway with no stored appointments. -/
theorem cancel_lookup_miss_reprompts_witness :
    dictGet wSvcCancel.sessions "bob" = some sessCancelStart ∧
    sessCancelStart.state = ConversationState.CANCEL_START ∧
    wGateway.get_patient_appointments (pyStrip "bob") = [] ∧
    (∃ svc' : ChatBotService,
      get_response wGateway wEnv wSvcCancel "bob" "bob" =
        Except.ok (svc',
          "[ERROR] No appointments found for '" ++ pyStrip "bob" ++
            "'.\n\nPlease check your name or phone number and try again.") ∧
      dictGet svc'.sessions "bob" = some sessCancelStart ∧
      sessCancelStart.state = ConversationState.CANCEL_START ∧
      sessCancelStart.state ≠ ConversationState.START ∧
      sessCancelStart.state ≠ ConversationState.CANCEL_CONFIRMATION) :=
  ⟨rfl, rfl, rfl,
    cancel_lookup_miss_reprompts wGateway wEnv wSvcCancel "bob" "bob" sessCancelStart
      rfl rfl (by decide) (by decide) (by decide) rfl⟩

/-! ## More fixtures (failing gateway, confirmation-state sessions) -/

/-- A concrete stored appointment. -/
def wAppointment : Appointment :=
  { id := "apt00001", patient_name := "bob", patient_phone := "+1-555-0100"
    doctor_name := "Smith", date := "2025-11-20", time := "10:00"
    service_type := ServiceType.CLEANING, status := AppointmentStatus.SCHEDULED
    notes := none }

/-- A gateway whose mutation calls report failure. -/
def wGatewayFail : ClinicGateway :=
  { get_patient_appointments := fun _ => [wAppointment]
    cancel_appointment := fun _ _ => false
    reschedule_appointment := fun _ _ _ => false
    book_appointment_validated := fun _ => BookResult.fail "db down"
    get_all_doctors := []
    get_doctor_by_name := fun _ => none
    fresh_id := "zz99yy88" }

/-- A session at `CANCEL_CONFIRMATION` with one listed appointment. -/
def sessCancelConfirm : Session :=
  { sessCancelStart with
      state := ConversationState.CANCEL_CONFIRMATION
      data := { sessCancelStart.data with available_appointments := [wAppointment] } }

/-- A session at `RESCHEDULE_CONFIRMATION` with a selected appointment
and new date/time collected. -/
def sessReschedConfirm : Session :=
  { sessCancelStart with
      state := ConversationState.RESCHEDULE_CONFIRMATION
      data := { sessCancelStart.data with
                  selected_appointment := some wAppointment
                  new_date := some "2025-11-21", new_time := some "11:00" } }

/-! ## Claim C1 -/

/-- C1 as stated is false on the code: at `CANCEL_CONFIRMATION` the
affirmative `yes` does not commit the cancellation (the handler parses
a 1-based number, so `yes` draws the enter-a-valid-number error with
the state unchanged), and at `RESCHEDULE_CONFIRMATION` the input
`edit` does not abort to `START` (the negative set there is only
`no`/`n`/`cancel`, so `edit` re-prompts with the state unchanged). -/
theorem confirmation_sets_counterexample :
    _handle_cancel_confirmation wGateway sessCancelConfirm "yes" =
      (sessCancelConfirm, "[ERROR] Please enter a valid number.") ∧
    _handle_reschedule_confirmation wGateway sessReschedConfirm "edit" =
      (sessReschedConfirm, "[ERROR] Please answer with 'yes' or 'no'") ∧
    sessCancelConfirm.state ≠ ConversationState.START ∧
    sessReschedConfirm.state ≠ ConversationState.START :=
  ⟨rfl, rfl, by decide, by decide⟩

/-- C1 (amended): the booking `CONFIRMATION` handler commits on the
affirmative set {yes, y, ok, correct, sure}, aborts to `START` on
{no, n, cancel, edit} and re-prompts otherwise with the session
unchanged; the `RESCHEDULE_CONFIRMATION` handler commits on the same
affirmative set but its negative set is only {no, n, cancel} —
anything else, `edit` included, re-prompts unchanged.  (The cancel
flow's `CANCEL_CONFIRMATION` is a numeric appointment pick, not a
yes/no confirmation; see the counterexample.) -/
theorem confirmation_sets_amended (clinic : ClinicGateway) (sess : Session)
    (input : String) :
    (pyLower (pyStrip input) ∈ (["yes", "y", "ok", "correct", "sure"] : List String) →
      _handle_confirmation clinic sess input = _book_appointment clinic sess) ∧
    (pyLower (pyStrip input) ∈ (["no", "n", "cancel", "edit"] : List String) →
      _handle_confirmation clinic sess input =
        ({ sess with state := ConversationState.START },
         "[CANCEL] Appointment cancelled.\n\nType anything to start over.")) ∧
    (pyLower (pyStrip input) ∉ (["yes", "y", "ok", "correct", "sure"] : List String) →
      pyLower (pyStrip input) ∉ (["no", "n", "cancel", "edit"] : List String) →
      _handle_confirmation clinic sess input =
        (sess, "[ERROR] Please answer with 'yes' or 'no'")) ∧
    (pyLower (pyStrip input) ∈ (["yes", "y", "ok", "correct", "sure"] : List String) →
      (clinic.reschedule_appointment
          (sess.data.selected_appointment.getD defaultAppointment).id
          (pyStrOpt sess.data.new_date) (pyStrOpt sess.data.new_time) = true →
        (_handle_reschedule_confirmation clinic sess input).1.state =
          ConversationState.START) ∧
      (clinic.reschedule_appointment
          (sess.data.selected_appointment.getD defaultAppointment).id
          (pyStrOpt sess.data.new_date) (pyStrOpt sess.data.new_time) = false →
        _handle_reschedule_confirmation clinic sess input =
          (sess, "[ERROR] Failed to reschedule appointment. Please try again or contact support."))) ∧
    (pyLower (pyStrip input) ∈ (["no", "n", "cancel"] : List String) →
      _handle_reschedule_confirmation clinic sess input =
        ({ sess with state := ConversationState.START },
         "[CANCEL] Rescheduling cancelled.\n\nType anything to start over.")) ∧
    (pyLower (pyStrip input) ∉ (["yes", "y", "ok", "correct", "sure"] : List String) →
      pyLower (pyStrip input) ∉ (["no", "n", "cancel"] : List String) →
      _handle_reschedule_confirmation clinic sess input =
        (sess, "[ERROR] Please answer with 'yes' or 'no'")) := by
  refine ⟨?_, ?_, ?_, ?_, ?_, ?_⟩
  · intro h
    unfold _handle_confirmation
    rw [if_pos h]
  · intro h
    have hna : pyLower (pyStrip input) ∉ (["yes", "y", "ok", "correct", "sure"] : List String) := by
      intro hmem
      simp only [List.mem_cons, List.not_mem_nil, or_false] at h hmem
      rcases h with h | h | h | h <;> rw [h] at hmem <;> simp at hmem
    unfold _handle_confirmation
    rw [if_neg hna, if_pos h]
  · intro h1 h2
    unfold _handle_confirmation
    rw [if_neg h1, if_neg h2]
  · intro h
    constructor
    · intro hgw
      unfold _handle_reschedule_confirmation
      rw [if_pos h]
      dsimp only
      rw [if_pos hgw]
    · intro hgw
      unfold _handle_reschedule_confirmation
      rw [if_pos h]
      dsimp only
      rw [if_neg (by rw [hgw]; exact Bool.false_ne_true)]
  · intro h
    have hna : pyLower (pyStrip input) ∉ (["yes", "y", "ok", "correct", "sure"] : List String) := by
      intro hmem
      simp only [List.mem_cons, List.not_mem_nil, or_false] at h hmem
      rcases h with h | h | h <;> rw [h] at hmem <;> simp at hmem
    unfold _handle_reschedule_confirmation
    rw [if_neg hna, if_pos h]
  · intro h1 h2
    unfold _handle_reschedule_confirmation
    rw [if_neg h1, if_neg h2]

/-- Witness for the amended C1: `" YES "` at the booking confirmation
commits, `"edit"` at the booking confirmation aborts to `START`, and
`"edit"` at the reschedule confirmation only re-prompts. -/
theorem confirmation_sets_amended_witness :
    (pyLower (pyStrip " YES ") ∈ (["yes", "y", "ok", "correct", "sure"] : List String)) ∧
    _handle_confirmation wGateway sessCancelStart " YES " =
      _book_appointment wGateway sessCancelStart ∧
    _handle_confirmation wGateway sessCancelStart "edit" =
      ({ sessCancelStart with state := ConversationState.START },
       "[CANCEL] Appointment cancelled.\n\nType anything to start over.") ∧
    _handle_reschedule_confirmation wGateway sessReschedConfirm "edit" =
      (sessReschedConfirm, "[ERROR] Please answer with 'yes' or 'no'") :=
  ⟨by decide,
    (confirmation_sets_amended wGateway sessCancelStart " YES ").1 (by decide),
    (confirmation_sets_amended wGateway sessCancelStart "edit").2.1 (by decide),
    (confirmation_sets_amended wGateway sessReschedConfirm "edit").2.2.2.2.2
      (by decide) (by decide)⟩

/-! ## Claim C4 -/

/-- C4 as stated is false on the code: when the gateway mutation
reports failure, neither the cancel flow nor the reschedule flow sets
the session back to `START` — both reply with the error message and
leave the state where it was. -/
theorem gateway_failure_counterexample :
    _handle_cancel_confirmation wGatewayFail sessCancelConfirm "1" =
      (sessCancelConfirm,
       "[ERROR] Failed to cancel appointment. Please try again or contact support.") ∧
    sessCancelConfirm.state ≠ ConversationState.START ∧
    _handle_reschedule_confirmation wGatewayFail sessReschedConfirm "yes" =
      (sessReschedConfirm,
       "[ERROR] Failed to reschedule appointment. Please try again or contact support.") ∧
    sessReschedConfirm.state ≠ ConversationState.START :=
  ⟨rfl, by decide, rfl, by decide⟩

/-- C4 (amended): on a gateway mutation failure the cancel and
reschedule confirmations reply with an error message and leave the
session exactly as it was (still in its confirmation state, not
`START`), and a booking failure likewise leaves the session unchanged
so the user can retry. -/
theorem gateway_failure_keeps_state (clinic : ClinicGateway) (sess : Session)
    (input : String) :
    (∀ n : Int, pyInt (pyStrip input) = some n →
      ¬ (n - 1 < 0 ∨ (sess.data.available_appointments.length : Int) ≤ n - 1) →
      clinic.cancel_appointment
          (sess.data.available_appointments.getD (n - 1).toNat defaultAppointment).id
          "Cancelled via chatbot" = false →
      _handle_cancel_confirmation clinic sess input =
        (sess, "[ERROR] Failed to cancel appointment. Please try again or contact support.")) ∧
    (pyLower (pyStrip input) ∈ (["yes", "y", "ok", "correct", "sure"] : List String) →
      clinic.reschedule_appointment
          (sess.data.selected_appointment.getD defaultAppointment).id
          (pyStrOpt sess.data.new_date) (pyStrOpt sess.data.new_time) = false →
      _handle_reschedule_confirmation clinic sess input =
        (sess, "[ERROR] Failed to reschedule appointment. Please try again or contact support.")) ∧
    (∀ m, clinic.book_appointment_validated (bookRequestOf sess.data) = BookResult.fail m →
      (_book_appointment clinic sess).1 = sess) := by
  refine ⟨?_, ?_, ?_⟩
  · intro n hn hrange hgw
    unfold _handle_cancel_confirmation
    rw [hn]
    dsimp only
    rw [if_neg hrange]
    rw [if_neg (by rw [hgw]; exact Bool.false_ne_true)]
  · intro h hgw
    unfold _handle_reschedule_confirmation
    rw [if_pos h]
    dsimp only
    rw [if_neg (by rw [hgw]; exact Bool.false_ne_true)]
  · intro m hm
    unfold _book_appointment
    dsimp only
    rw [hm]

/-- Witness for the amended C4: selection `"1"` at cancel confirmation
against a gateway whose `cancel_appointment` returns false. -/
theorem gateway_failure_keeps_state_witness :
    pyInt (pyStrip "1") = some 1 ∧
    wGatewayFail.cancel_appointment wAppointment.id "Cancelled via chatbot" = false ∧
    _handle_cancel_confirmation wGatewayFail sessCancelConfirm "1" =
      (sessCancelConfirm,
       "[ERROR] Failed to cancel appointment. Please try again or contact support.") :=
  ⟨rfl, rfl,
    (gateway_failure_keeps_state wGatewayFail sessCancelConfirm "1").1 1 rfl
      (by decide) rfl⟩

/-! ## Claim C5 -/

/-- C5: `_book_appointment` outcomes: a gateway success advances the
session to `BOOKING_COMPLETE` with the structured confirmation summary
echoed; a reported failure surfaces the gateway's message verbatim in
the reply with the session unchanged; a caught internal exception
yields the generic retry message with the session (state and draft)
exactly as before the commit. -/
theorem booking_commit_outcomes (clinic : ClinicGateway) (sess : Session) :
    (∀ m, clinic.book_appointment_validated (bookRequestOf sess.data) = BookResult.ok m →
      _book_appointment clinic sess =
        ({ sess with state := ConversationState.BOOKING_COMPLETE },
         bookingSuccessText sess.data clinic.fresh_id)) ∧
    (∀ m, clinic.book_appointment_validated (bookRequestOf sess.data) = BookResult.fail m →
      _book_appointment clinic sess =
        (sess, "[ERROR] Booking failed: " ++ m ++ "\n\nPlease try again or contact support.") ∧
      pyIn m (_book_appointment clinic sess).2 = true) ∧
    (∀ e, clinic.book_appointment_validated (bookRequestOf sess.data) = BookResult.exn e →
      _book_appointment clinic sess =
        (sess, "[ERROR] Error booking appointment: " ++ e ++ "\n\nPlease try again later.")) := by
  refine ⟨?_, ?_, ?_⟩
  · intro m hm
    unfold _book_appointment
    dsimp only
    rw [hm]
  · intro m hm
    have heq : _book_appointment clinic sess =
        (sess, "[ERROR] Booking failed: " ++ m ++ "\n\nPlease try again or contact support.") := by
      unfold _book_appointment
      dsimp only
      rw [hm]
    refine ⟨heq, ?_⟩
    rw [heq]
    rw [pyIn_iff]
    exact ⟨("[ERROR] Booking failed: " : String).toList,
      ("\n\nPlease try again or contact support." : String).toList, by simp⟩
  · intro e he
    unfold _book_appointment
    dsimp only
    rw [he]
    rfl

/-- Witness for C5: a successful commit from a fresh draft against the
always-succeeding gateway. -/
theorem booking_commit_outcomes_witness :
    wGateway.book_appointment_validated (bookRequestOf sessCancelStart.data) =
      BookResult.ok "ok" ∧
    _book_appointment wGateway sessCancelStart =
      ({ sessCancelStart with state := ConversationState.BOOKING_COMPLETE },
       bookingSuccessText sessCancelStart.data wGateway.fresh_id) :=
  ⟨rfl, (booking_commit_outcomes wGateway sessCancelStart).1 "ok" rfl⟩

/-! ## Claim C9 -/

/-- Ten stored sessions: eight fresh, `e1` expired at the first call's
clock, `e2` expiring only by the second call's clock. -/
def svcTen : ChatBotService :=
  ⟨[("u1", _create_session "u1" 3000), ("u2", _create_session "u2" 3000),
    ("u3", _create_session "u3" 3000), ("u4", _create_session "u4" 3000),
    ("u5", _create_session "u5" 3000), ("u6", _create_session "u6" 3000),
    ("u7", _create_session "u7" 3000), ("u8", _create_session "u8" 3000),
    ("e1", _create_session "e1" 0), ("e2", _create_session "e2" 1000)]⟩

/-- Clock of the first call. -/
def envC9a : Env := { now := 3700, today := ⟨2025, 10, 12⟩, hour := 10 }

/-- Clock of the second call, 1000 seconds later. -/
def envC9b : Env := { now := 4700, today := ⟨2025, 10, 12⟩, hour := 10 }

/-- Engine state after the first call (user `v`, innocuous input). -/
def svcSweep1 : ChatBotService :=
  ((get_response wGateway envC9a svcTen "hello" "v").toOption.getD (⟨[]⟩, "")).1

/-- Engine state after the second, immediately following call. -/
def svcSweep2 : ChatBotService :=
  ((get_response wGateway envC9b svcSweep1 "hello" "v").toOption.getD (⟨[]⟩, "")).1

/-- C9: the sweep trigger is the session-count test
`len(self.sessions) % 10 == 0`, not a call-count cadence: with ten
stored sessions the sweep runs on two immediately consecutive calls —
the first call evicts the then-expired `e1` (and only it), the second
call evicts the newly expired `e2` — so no `N > 1` exists with sweeps
exactly on every N-th call.  The evictions themselves are exactly the
sessions whose age exceeds the 1-hour TTL. -/
theorem sweep_runs_on_consecutive_calls :
    svcTen.sessions.length = 10 ∧
    (dictGet svcTen.sessions "e1").isSome = true ∧
    (dictGet svcTen.sessions "e2").isSome = true ∧
    sessionExpired envC9a.now 1 (_create_session "e1" 0) = true ∧
    sessionExpired envC9a.now 1 (_create_session "e2" 1000) = false ∧
    sessionExpired envC9b.now 1 (_create_session "e2" 1000) = true ∧
    dictGet svcSweep1.sessions "e1" = none ∧
    (dictGet svcSweep1.sessions "e2").isSome = true ∧
    (dictGet svcSweep1.sessions "u1").isSome = true ∧
    svcSweep1.sessions.length = 10 ∧
    dictGet svcSweep2.sessions "e2" = none ∧
    (dictGet svcSweep2.sessions "u1").isSome = true := by
  decide

end Chatbot
